import Mathlib

/-!
Shallow embedding of the LDF (LIN Description File) parser of the
`autodbconv` repository (src/src/parsers/{ldf,encoding,error}.rs) and proofs
about it.

Modelling conventions:
* Rust `String`/`&str` tokens become Lean `String`; the tokenizer's backing
  text is a `List Char` with a character-position cursor (the source uses a
  byte cursor over UTF-8 text; for the ASCII inputs of interest the two are
  in bijection, and the state machines are transcribed verbatim).
* Rust machine integers become `Nat` with explicit `% 2^w` at every `as uN`
  cast; `u64` parses carry the `< 2^64` overflow check of `from_str`.
* Rust `f64` fields become `ℚ`; decimal literals are read exactly, so every
  claim value here (19.2 * 1000 = 19200, 0.1, ...) is exact.  IEEE rounding,
  `inf`/`NaN` literals and `u64 -> f64` rounding above 2^53 are not modelled;
  no claim depends on them.
* Rust `HashMap` becomes an association list with replace-on-insert
  semantics; the parser only ever looks maps up by key (it never iterates
  one), so contents are order-faithful.
* Fallible Rust code (`Result<_, Error>`) becomes `Except Error _`.
* Loops (`while`/`loop` in `parse_ldf`) take an explicit fuel argument;
  every iteration of every source loop consumes at least one token, hence
  at least one input character, so fuel `data.length + 1` is never
  exhausted on the inputs evaluated below, and all universal theorems are
  stated for every fuel value.
-/

namespace Autodbconv

/-- Error taxonomy as required by src/parsers/ldf.rs.  Note: the enum
actually declared in src/parsers/error.rs *omits* the `DuplicateEncoding`
variant even though ldf.rs constructs `Error::DuplicateEncoding`; the list
of variants literally declared in error.rs is recorded separately in
`errorRsVariants` below. -/
inductive Error where
  | IOError (msg : String) -- named `IO` in error.rs; wraps an I/O failure message
  | ExpectedComment
  | ExpectedToken
  | UnexpectedToken
  | IncorrectToken
  | NumberParse
  | SignalTooWide
  | UnknownNode
  | UnknownFrame
  | UnknownSignal
  | DuplicateSignal
  | DuplicateFrame
  | DuplicateEncoding
  | NotUnconditionalFrame
  | SporadicFrameHasResponder
  | EventFrameDifferentLength
  | NotImplemented
  deriving DecidableEq, Repr

/-- The variant names of the `Error` enum exactly as declared in
src/parsers/error.rs (lines 1-19). -/
def errorRsVariants : List String :=
  ["IO", "ExpectedComment", "ExpectedToken", "UnexpectedToken",
   "IncorrectToken", "NumberParse", "SignalTooWide", "UnknownNode",
   "UnknownFrame", "UnknownSignal", "DuplicateSignal", "DuplicateFrame",
   "NotUnconditionalFrame", "SporadicFrameHasResponder",
   "EventFrameDifferentLength", "NotImplemented"]

/-- `MAX_SIGNAL_WIDTH` from src/parsers/encoding.rs (a `u16`). -/
def MAX_SIGNAL_WIDTH : Nat := 64

/-- `BIT_START_INVALID = u16::MAX` from src/parsers/encoding.rs. -/
def BIT_START_INVALID : Nat := 65535

/-- `Encoding` from src/parsers/encoding.rs.  `scale`/`offset` are `f64`
in the source, modelled as `ℚ`; the `Enum` map is a `HashMap<String,u64>`,
modelled as an association list. -/
inductive Encoding where
  | Scalar (raw_min raw_max : Nat) (scale offset : ℚ) (unit : String)
  | Enum (name : String) (map : List (String × Nat))
  deriving DecidableEq, Repr

/-- `Signal` from src/parsers/encoding.rs (`bit_start`, `bit_width` are
`u16`, `init_value` is `u64`). -/
structure Signal where
  signed : Bool
  little_endian : Bool
  bit_start : Nat
  bit_width : Nat
  init_value : Nat
  encodings : List Encoding
  deriving DecidableEq, Repr

/-- `Message` from src/parsers/encoding.rs (`id : u32`, `byte_width : u16`). -/
structure Message where
  sender : String
  id : Nat
  byte_width : Nat
  signals : List String
  mux_signals : List (String × (Nat × List String))
  deriving DecidableEq, Repr

/-- `LINResponderData` from src/parsers/encoding.rs. -/
structure LINResponderData where
  subscribed_signals : List String
  configured_nad : Nat
  initial_nad : Option Nat
  product_id : Option (Nat × Nat × Nat)
  response_error : Option String
  configurable_frames : List (String × Option Nat)
  deriving DecidableEq, Repr

/-- `Default` for `LINResponderData` (all-empty, as derived in Rust). -/
def LINResponderData.default : LINResponderData :=
  { subscribed_signals := [], configured_nad := 0, initial_nad := none,
    product_id := none, response_error := none, configurable_frames := [] }

/-- `LDFScheduleCommand` from src/parsers/encoding.rs.  Byte arrays
(`[u8; n]`) are modelled as `List Nat` of the same length. -/
inductive LDFScheduleCommand where
  | Frame (name : String)
  | CommanderReq
  | ResponderResp
  | AssignNAD (node : String)
  | ConditionalChangeNAD (nad id byte mask inv new_nad : Nat)
  | DataDump (name : String) (data : List Nat)
  | SaveConfiguration (node : String)
  | AssignFrameIdRange (name : String) (index : Nat) (pid : List Nat)
  | FreeFormat (data : List Nat)
  | AssignFrameId (node : String) (frame : String)
  deriving DecidableEq, Repr

/-- `LDFData` from src/parsers/encoding.rs.  The `postfix` channel-name
field of the source is called `channel_suffix` here because its source
name collides with a Lean keyword. -/
structure LDFData where
  bitrate : ℚ
  channel_suffix : String
  commander : String
  time_base : ℚ
  jitter : ℚ
  responders : List (String × LINResponderData)
  sporadic_frames : List (String × List String)
  event_frames : List (String × (String × Nat × List String))
  schedule_tables : List (String × List (LDFScheduleCommand × ℚ))
  deriving DecidableEq, Repr

/-- `Default` for `LDFData`. -/
def LDFData.default : LDFData :=
  { bitrate := 0, channel_suffix := "", commander := "", time_base := 0,
    jitter := 0, responders := [], sporadic_frames := [], event_frames := [],
    schedule_tables := [] }

/-- `DatabaseType` from src/parsers/encoding.rs. -/
inductive DatabaseType where
  | NCF
  | LDF (data : LDFData)
  | DBC
  deriving DecidableEq, Repr

/-- `Database` from src/parsers/encoding.rs. -/
structure Database where
  signals : List (String × Signal)
  messages : List (String × Message)
  extra : DatabaseType
  deriving DecidableEq, Repr

/-- `Default` for `Database` (`extra` defaults to `NCF`). -/
def Database.default : Database :=
  { signals := [], messages := [], extra := .NCF }

/-! ### Association-list helpers (the `HashMap` operations used by ldf.rs) -/

/-- `HashMap::contains_key`. -/
def alContains {α : Type} (l : List (String × α)) (k : String) : Bool :=
  l.any (fun p => p.1 = k)

/-- `HashMap` lookup (used for both `get` and indexing in the source,
which always guards indexing with `contains_key`). -/
def alGet? {α : Type} (l : List (String × α)) (k : String) : Option α :=
  (l.find? (fun p => p.1 = k)).map (fun p => p.2)

/-- `HashMap::insert` (replaces the value if the key is present). -/
def alInsert {α : Type} (l : List (String × α)) (k : String) (v : α) :
    List (String × α) :=
  if alContains l k then
    l.map (fun p => if p.1 = k then (k, v) else p)
  else l ++ [(k, v)]

/-- `HashMap::get_mut` followed by an in-place update of the entry. -/
def alModify {α : Type} (l : List (String × α)) (k : String) (f : α → α) :
    List (String × α) :=
  l.map (fun p => if p.1 = k then (p.1, f p.2) else p)

/-! ### Tokenizer (src/parsers/ldf.rs lines 15-148) -/

/-- `Tokenizer` from ldf.rs: the full file text plus a cursor.  The source
cursor is a byte index into UTF-8 text; here it is a character index, which
coincides for ASCII text. -/
structure Tokenizer where
  data : List Char
  index : Nat
  deriving DecidableEq, Repr

/-- `TokenizerState` from ldf.rs. -/
inductive TokenizerState where
  | Search
  | ExpectComment
  | BlockComment
  | LineComment
  | CharString (first : Bool)
  | Skip
  | Stop
  | Found (idx : Nat) (c : Char)
  deriving DecidableEq, Repr

/-- Rust `char::is_whitespace` restricted to the ASCII range (the Unicode
separator code points above 0x7F are not modelled; every input considered
here is ASCII). -/
def isWhitespaceR (c : Char) : Bool :=
  c = ' ' ∨ c = '\t' ∨ c = '\n' ∨ c = '\x0d' ∨ c = '\x0b' ∨ c = '\x0c'

/-- The fixed delimiter set of `Tokenizer::parse` (ldf.rs line 80). -/
def isDelimiter (c : Char) : Bool :=
  c = ',' ∨ c = ';' ∨ c = ':' ∨ c = '=' ∨ c = '\x7b' ∨ c = '\x7d' ∨ c = '/'

/-- First loop of `Tokenizer::parse` (ldf.rs lines 43-77): scan forward from
the cursor for the start of the next token, skipping whitespace and
comments.  `pos` is the absolute position of the head of `cs`. -/
def searchLoop : List Char → Nat → Char → TokenizerState →
    Except Error TokenizerState
  | [], _, _, st => .ok st
  | c :: rest, pos, cPrev, st =>
    match st with
    | .Search =>
      if c = '/' then searchLoop rest (pos + 1) c .ExpectComment
      else if isWhitespaceR c then searchLoop rest (pos + 1) c .Search
      else .ok (.Found pos c)
    | .ExpectComment =>
      if c = '*' then searchLoop rest (pos + 1) c .BlockComment
      else if c = '/' then searchLoop rest (pos + 1) c .LineComment
      else .error .ExpectedComment
    | .BlockComment =>
      if cPrev = '*' ∧ c = '/' then searchLoop rest (pos + 1) c .Search
      else searchLoop rest (pos + 1) c .BlockComment
    | .LineComment =>
      if c = '\n' then searchLoop rest (pos + 1) c .Search
      else searchLoop rest (pos + 1) c .LineComment
    | st => searchLoop rest (pos + 1) c st

/-- Second loop of `Tokenizer::parse` (ldf.rs lines 89-113): find the end of
the token starting at the character that was `Found`.  `pos` is the absolute
position of the head of `cs`. -/
def endLoop : List Char → Nat → TokenizerState → TokenizerState
  | [], _, st => st
  | c :: rest, pos, st =>
    match st with
    | .Search =>
      if isDelimiter c ∨ isWhitespaceR c then .Found pos c
      else endLoop rest (pos + 1) .Search
    | .CharString first =>
      if first then endLoop rest (pos + 1) (.CharString false)
      else if c = '"' then endLoop rest (pos + 1) .Stop
      else endLoop rest (pos + 1) (.CharString false)
    | .Skip => endLoop rest (pos + 1) .Stop
    | .Stop => .Found pos c
    | st => endLoop rest (pos + 1) st

/-- `Tokenizer::parse` (ldf.rs lines 41-128). -/
def Tokenizer.parse (t : Tokenizer) (update : Bool) :
    Except Error (String × Tokenizer) :=
  match searchLoop (t.data.drop t.index) t.index ' ' .Search with
  | .error e => .error e
  | .ok (.Found startIdx cStart) =>
    let st0 : TokenizerState :=
      if cStart = '"' then .CharString true
      else if isDelimiter cStart then .Skip
      else .Search
    let newIndex :=
      match endLoop (t.data.drop startIdx) startIdx st0 with
      | .Found endIdx _ => endIdx
      | _ => t.data.length
    .ok (String.mk ((t.data.drop startIdx).take (newIndex - startIdx)),
         if update then { t with index := newIndex } else t)
  | .ok _ => .error .ExpectedToken

/-- `Tokenizer::next`. -/
def Tokenizer.next (t : Tokenizer) : Except Error (String × Tokenizer) :=
  t.parse true

/-- `Tokenizer::peek` (same scan, cursor not advanced). -/
def Tokenizer.peek (t : Tokenizer) : Except Error String :=
  (t.parse false).map Prod.fst

/-- `Tokenizer::check_equal` (ldf.rs lines 138-147). -/
def Tokenizer.check_equal (t : Tokenizer) : List String → Except Error Tokenizer
  | [] => .ok t
  | e :: rest => do
    let (actual, t') ← t.next
    if actual = e then t'.check_equal rest else .error .IncorrectToken

/-! ### Numeric literal readers (ldf.rs lines 172-190) -/

/-- Decimal digit value. -/
def decDigit? (c : Char) : Option Nat :=
  if '0' ≤ c ∧ c ≤ '9' then some (c.toNat - '0'.toNat) else none

/-- Hexadecimal digit value. -/
def hexDigit? (c : Char) : Option Nat :=
  if '0' ≤ c ∧ c ≤ '9' then some (c.toNat - '0'.toNat)
  else if 'a' ≤ c ∧ c ≤ 'f' then some (c.toNat - 'a'.toNat + 10)
  else if 'A' ≤ c ∧ c ≤ 'F' then some (c.toNat - 'A'.toNat + 10)
  else none

/-- Value of a digit run; `none` if empty or any character is not a digit. -/
def digitsVal? (f : Char → Option Nat) (base : Nat) : List Char → Option Nat
  | [] => none
  | cs => cs.foldl (fun acc c => acc.bind (fun a => (f c).map (a * base + ·)))
      (some 0)

/-- `u64::from_str_radix` / `str::parse::<u64>`: optional leading `+`, a
nonempty digit run, value below `2^64`. -/
def parseU64Core (base : Nat) (f : Char → Option Nat) (cs : List Char) :
    Except Error Nat :=
  let cs := match cs with
    | '+' :: rest => rest
    | cs => cs
  match digitsVal? f base cs with
  | some v => if v < 2 ^ 64 then .ok v else .error .NumberParse
  | none => .error .NumberParse

/-- `parse_integer` (ldf.rs lines 184-190); the `ParseIntError` conversion
of error.rs yields `NumberParse`. -/
def parse_integer (s : String) : Except Error Nat :=
  if s.toList.take 2 = ['0', 'x'] then
    parseU64Core 16 hexDigit? (s.toList.drop 2)
  else parseU64Core 10 decDigit? s.toList

/-- Leading sign of a numeric literal: (negative?, rest). -/
def splitSign : List Char → Bool × List Char
  | '+' :: r => (false, r)
  | '-' :: r => (true, r)
  | r => (false, r)

/-- Is `c` an ASCII decimal digit. -/
def isDecDigit (c : Char) : Bool := '0' ≤ c ∧ c ≤ '9'

/-- Numeric value of a list of decimal digits. -/
def digitsNat (cs : List Char) : Nat :=
  cs.foldl (fun a c => a * 10 + (c.toNat - '0'.toNat)) 0

/-- Mantissa of an `f64` literal: `digits [. digits]` or `. digits` or
`digits .`; returns its exact rational value and the rest of the input. -/
def parseMantissa (cs : List Char) : Option (ℚ × List Char) :=
  let ip := cs.takeWhile isDecDigit
  let r1 := cs.dropWhile isDecDigit
  match r1 with
  | '.' :: r2 =>
    let fp := r2.takeWhile isDecDigit
    let r3 := r2.dropWhile isDecDigit
    if ip.isEmpty ∧ fp.isEmpty then none
    else some ((digitsNat ip : ℚ) + (digitsNat fp : ℚ) / 10 ^ fp.length, r3)
  | _ => if ip.isEmpty then none else some ((digitsNat ip : ℚ), r1)

/-- Optional exponent part `([eE] [+-]? digits)` of an `f64` literal. -/
def parseExp : List Char → Option (Bool × Nat × List Char)
  | [] => some (false, 0, [])
  | c :: r =>
    if c = 'e' ∨ c = 'E' then
      let (neg, r1) := splitSign r
      let ds := r1.takeWhile isDecDigit
      let r2 := r1.dropWhile isDecDigit
      if ds.isEmpty then none else some (neg, digitsNat ds, r2)
    else some (false, 0, c :: r)

/-- `str::parse::<f64>` on ordinary finite decimal literals, read exactly
into `ℚ` (the `inf`/`NaN` spellings and IEEE rounding are not modelled). -/
def parseF64 (s : String) : Except Error ℚ :=
  let (neg, cs) := splitSign s.toList
  match parseMantissa cs with
  | none => .error .NumberParse
  | some (m, r) =>
    match parseExp r with
    | some (eneg, e, []) =>
      let m := if neg then -m else m
      .ok (if eneg then m / 10 ^ e else m * 10 ^ e)
    | _ => .error .NumberParse

/-- `parse_real_or_integer` (ldf.rs lines 172-182): hex literals are read
as `u64` then converted to the real type; anything else is an `f64` parse.
A failed hex parse is turned into a float-parse failure (`"z".parse()` in
the source), i.e. `NumberParse`. -/
def parse_real_or_integer (s : String) : Except Error ℚ :=
  if s.toList.take 2 = ['0', 'x'] then
    match parseU64Core 16 hexDigit? (s.toList.drop 2) with
    | .ok i => .ok (i : ℚ)
    | .error _ => .error .NumberParse
  else parseF64 s

/-! ### Grammar state machine (ldf.rs lines 150-856)

Each `while`/`loop` of `parse_ldf` becomes a fuel-indexed recursive
function; fuel exhaustion returns `.error .NotImplemented` and is never
reached for the fuel values supplied by `parse_ldf` (every iteration
consumes at least one token, hence at least one character). -/

/-- `ParserState` from ldf.rs lines 150-170. -/
inductive ParserState where
  | Header
  | ProtocolVersion
  | LanguageVersion
  | Speed
  | ChannelName
  | Node
  | NodeComposition
  | Signal
  | DiagnosticSignal
  | Frame
  | SporadicFrame
  | EventTriggeredFrame
  | DiagnosticFrame
  | NodeAttributes
  | ScheduleTable
  | SignalGroups
  | SignalEncodingTypes
  | SignalRepresentation
  | Done
  deriving DecidableEq, Repr

/-- The parser's mutable state: tokenizer, output `Database`, the LDF
metadata being built, and the parse-local `encodings` map of ldf.rs
line 197 (which is dropped at the end of `parse_ldf`). -/
structure PState where
  toks : Tokenizer
  db : Database
  data : LDFData
  encodings : List (String × List Encoding)
  deriving DecidableEq, Repr

/-- `Slaves:` responder-name list loop of the `Node` state
(ldf.rs lines 247-256). -/
def respNamesLoop : Nat → Tokenizer → List (String × LINResponderData) →
    Except Error (Tokenizer × List (String × LINResponderData))
  | 0, _, _ => .error .NotImplemented
  | n + 1, t, resp => do
    let (name, t1) ← t.next
    let resp1 := alInsert resp name LINResponderData.default
    let (delim, t2) ← t1.next
    if delim = ";" then .ok (t2, resp1)
    else if delim ≠ "," then .error .IncorrectToken
    else respNamesLoop n t2 resp1

/-- Brace-depth skip loop (`NodeComposition`, ldf.rs lines 267-274, and
`SignalGroups`, lines 743-750). -/
def skipDepthLoop : Nat → Tokenizer → Nat → Except Error Tokenizer
  | 0, _, _ => .error .NotImplemented
  | n + 1, t, depth =>
    if depth = 0 then .ok t
    else do
      let (tok, t1) ← t.next
      if tok = "\x7b" then skipDepthLoop n t1 (depth + 1)
      else if tok = "\x7d" then skipDepthLoop n t1 (depth - 1)
      else skipDepthLoop n t1 depth

/-- `while tokens.next()? != stop {}` loops (ldf.rs lines 291, 554). -/
def skipUntilTok : Nat → Tokenizer → String → Except Error Tokenizer
  | 0, _, _ => .error .NotImplemented
  | n + 1, t, stop => do
    let (tok, t1) ← t.next
    if tok = stop then .ok t1 else skipUntilTok n t1 stop

/-- Subscriber list loop of the `Signal` state (ldf.rs lines 297-307). -/
def subscribersLoop : Nat → Tokenizer → String →
    List (String × LINResponderData) →
    Except Error (Tokenizer × List (String × LINResponderData))
  | 0, _, _, _ => .error .NotImplemented
  | n + 1, t, name, resp => do
    let p ← t.peek
    if p = ";" then .ok (t, resp)
    else do
      let t1 ← t.check_equal [","]
      let (sub, t2) ← t1.next
      let resp1 :=
        if alContains resp sub then
          alModify resp sub (fun r =>
            { r with subscribed_signals := r.subscribed_signals ++ [name] })
        else resp
      subscribersLoop n t2 name resp1

/-- Per-signal loop of the `Signal` state (ldf.rs lines 279-320). -/
def signalsLoop : Nat → Tokenizer → List (String × LINResponderData) →
    List (String × Signal) →
    Except Error (Tokenizer × List (String × LINResponderData) ×
      List (String × Signal))
  | 0, _, _, _ => .error .NotImplemented
  | n + 1, t, resp, sigs => do
    let p ← t.peek
    if p = "\x7d" then .ok (t, resp, sigs)
    else do
      let (name, t1) ← t.next
      let t2 ← t1.check_equal [":"]
      let (wtok, t3) ← t2.next
      let w ← parse_integer wtok
      let bit_width := w % 2 ^ 16
      if bit_width > MAX_SIGNAL_WIDTH then .error .SignalTooWide
      else do
        let t4 ← t3.check_equal [","]
        let pk ← t4.peek
        let (init_value, t5) ←
          if pk = "\x7b" then do
            let t' ← skipUntilTok (t4.data.length + 1) t4 "\x7d"
            pure ((0 : Nat), t')
          else do
            let (itok, t') ← t4.next
            let iv ← parse_integer itok
            pure (iv, t')
        let t6 ← t5.check_equal [","]
        let (_publisher, t7) ← t6.next
        let (t8, resp1) ← subscribersLoop (t7.data.length + 1) t7 name resp
        let (_, t9) ← t8.next
        let sigs1 := alInsert sigs name
          { signed := false, little_endian := true,
            bit_start := BIT_START_INVALID, bit_width := bit_width,
            init_value := init_value, encodings := [] }
        signalsLoop n t9 resp1 sigs1

/-- Per-(signal, offset) loop inside one frame of the `Frame` state
(ldf.rs lines 364-379). -/
def frameSigsLoop : Nat → Tokenizer → List (String × Signal) → List String →
    Except Error (Tokenizer × List (String × Signal) × List String)
  | 0, _, _, _ => .error .NotImplemented
  | n + 1, t, sigs, acc => do
    let p ← t.peek
    if p = "\x7d" then .ok (t, sigs, acc)
    else do
      let (sname, t1) ← t.next
      let t2 ← t1.check_equal [","]
      let (otok, t3) ← t2.next
      let off ← parse_integer otok
      let signal_offset := off % 2 ^ 16
      let t4 ← t3.check_equal [";"]
      match alGet? sigs sname with
      | some s =>
        if s.bit_start = BIT_START_INVALID then
          frameSigsLoop n t4
            (alModify sigs sname (fun s => { s with bit_start := signal_offset }))
            (acc ++ [sname])
        else .error .DuplicateSignal
      | none => .error .UnknownSignal

/-- Per-frame loop of the `Frame` state (ldf.rs lines 354-391). -/
def framesLoop : Nat → Tokenizer → List (String × Signal) →
    List (String × Message) →
    Except Error (Tokenizer × List (String × Signal) × List (String × Message))
  | 0, _, _, _ => .error .NotImplemented
  | n + 1, t, sigs, msgs => do
    let p ← t.peek
    if p = "\x7d" then .ok (t, sigs, msgs)
    else do
      let (name, t1) ← t.next
      let t2 ← t1.check_equal [":"]
      let (idtok, t3) ← t2.next
      let idv ← parse_integer idtok
      let t4 ← t3.check_equal [","]
      let (sender, t5) ← t4.next
      let t6 ← t5.check_equal [","]
      let (bwtok, t7) ← t6.next
      let bwv ← parse_integer bwtok
      let t8 ← t7.check_equal ["\x7b"]
      let (t9, sigs1, fsignals) ← frameSigsLoop (t8.data.length + 1) t8 sigs []
      let (_, t10) ← t9.next
      framesLoop n t10 sigs1 (alInsert msgs name
        { sender := sender, id := idv % 2 ^ 32, byte_width := bwv % 2 ^ 16,
          signals := fsignals, mux_signals := [] })

/-- Constituent-frame loop of one sporadic group (ldf.rs lines 406-417).
Note: the first listed frame was already pushed unchecked by the caller
(`vec![tokens.next()?.to_string()]`, line 405); this loop checks only the
second and subsequent frames. -/
def sporadicFramesLoop : Nat → Tokenizer → List (String × Message) → String →
    List String → Except Error (Tokenizer × List String)
  | 0, _, _, _, _ => .error .NotImplemented
  | n + 1, t, msgs, commander, frames => do
    let p ← t.peek
    if p = ";" then .ok (t, frames)
    else do
      let t1 ← t.check_equal [","]
      let (f, t2) ← t1.next
      match alGet? msgs f with
      | none => .error .UnknownFrame
      | some m =>
        if m.sender ≠ commander then .error .SporadicFrameHasResponder
        else if frames.contains f then .error .DuplicateFrame
        else sporadicFramesLoop n t2 msgs commander (frames ++ [f])

/-- Per-group loop of the `SporadicFrame` state (ldf.rs lines 402-424). -/
def sporadicLoop : Nat → Tokenizer → List (String × Message) → String →
    List (String × List String) →
    Except Error (Tokenizer × List (String × List String))
  | 0, _, _, _, _ => .error .NotImplemented
  | n + 1, t, msgs, commander, spor => do
    let p ← t.peek
    if p = "\x7d" then .ok (t, spor)
    else do
      let (name, t1) ← t.next
      let t2 ← t1.check_equal [":"]
      let (first, t3) ← t2.next
      let (t4, frames) ←
        sporadicFramesLoop (t3.data.length + 1) t3 msgs commander [first]
      let (_, t5) ← t4.next
      if alContains msgs name || alContains spor name then
        .error .DuplicateFrame
      else sporadicLoop n t5 msgs commander (alInsert spor name frames)

/-- Constituent-frame loop of one event-triggered group
(ldf.rs lines 441-451). -/
def eventFramesLoop : Nat → Tokenizer → List (String × Message) →
    List String → Except Error (Tokenizer × List String)
  | 0, _, _, _ => .error .NotImplemented
  | n + 1, t, msgs, frames => do
    let p ← t.peek
    if p = ";" then .ok (t, frames)
    else do
      let t1 ← t.check_equal [","]
      let (f, t2) ← t1.next
      if frames.contains f then .error .DuplicateFrame
      else if alContains msgs f then eventFramesLoop n t2 msgs (frames ++ [f])
      else .error .NotUnconditionalFrame

/-- Per-group loop of the `EventTriggeredFrame` state
(ldf.rs lines 434-470). -/
def eventLoop : Nat → Tokenizer → List (String × Message) →
    List (String × List String) →
    List (String × (String × Nat × List String)) →
    Except Error (Tokenizer × List (String × (String × Nat × List String)))
  | 0, _, _, _, _ => .error .NotImplemented
  | n + 1, t, msgs, spor, evts => do
    let p ← t.peek
    if p = "\x7d" then .ok (t, evts)
    else do
      let (name, t1) ← t.next
      let t2 ← t1.check_equal [":"]
      let (resolver, t3) ← t2.next
      let t4 ← t3.check_equal [","]
      let (idtok, t5) ← t4.next
      let idv ← parse_integer idtok
      let (t6, frames) ← eventFramesLoop (t5.data.length + 1) t5 msgs []
      let (_, t7) ← t6.next
      let all_same_len :=
        match frames with
        | [] => true
        | f0 :: _ =>
          -- every frame in the list was checked to exist, so the lookup of
          -- `frames[0]` (a panicking index in the source) cannot miss
          frames.all (fun f =>
            ((alGet? msgs f).map Message.byte_width) =
              ((alGet? msgs f0).map Message.byte_width))
      if alContains msgs name || alContains spor name || alContains evts name
      then .error .DuplicateFrame
      else if all_same_len then
        eventLoop n t7 msgs spor (alInsert evts name (resolver, idv % 2 ^ 32, frames))
      else .error .EventFrameDifferentLength

/-- `configurable_frames` list loop of the `NodeAttributes` state
(ldf.rs lines 558-574). -/
def configFramesLoop : Nat → Tokenizer → List (String × Message) →
    List (String × (String × Nat × List String)) →
    List (String × Option Nat) →
    Except Error (Tokenizer × List (String × Option Nat))
  | 0, _, _, _, _ => .error .NotImplemented
  | n + 1, t, msgs, evts, acc => do
    let p ← t.peek
    if p = "\x7d" then .ok (t, acc)
    else do
      let (frame, t1) ← t.next
      if (!alContains msgs frame) && (!alContains evts frame) then
        .error .UnknownFrame
      else do
        let pk ← t1.peek
        let (id, t2) ←
          if pk = "=" then do
            let (_, t') ← t1.next
            let (itok, t'') ← t'.next
            let iv ← parse_integer itok
            pure (some (iv % 2 ^ 16), t'')
          else pure ((none : Option Nat), t1)
        let t3 ← t2.check_equal [";"]
        configFramesLoop n t3 msgs evts (acc ++ [(frame, id)])

/-- Skipping of the known-but-unsupported diagnostic timing fields, in
their fixed order (ldf.rs lines 544-556). -/
def skipDiagFields : List String → Tokenizer → Except Error Tokenizer
  | [], t => .ok t
  | s :: rest, t => do
    let p ← t.peek
    if p = s then do
      let t1 ← t.check_equal [s, "="]
      let t2 ← skipUntilTok (t1.data.length + 1) t1 ";"
      skipDiagFields rest t2
    else skipDiagFields rest t

/-- Per-node loop of the `NodeAttributes` state (ldf.rs lines 507-578). -/
def nodeAttrsLoop : Nat → Tokenizer → List (String × Signal) →
    List (String × Message) → List (String × (String × Nat × List String)) →
    List (String × LINResponderData) →
    Except Error (Tokenizer × List (String × LINResponderData))
  | 0, _, _, _, _, _ => .error .NotImplemented
  | n + 1, t, sigs, msgs, evts, resp => do
    let p ← t.peek
    if p = "\x7d" then .ok (t, resp)
    else do
      let (name, t1) ← t.next
      if ¬ alContains resp name then .error .UnknownNode
      else do
        let r0 := (alGet? resp name).getD LINResponderData.default
        let t2 ← t1.check_equal ["\x7b", "LIN_protocol", "="]
        let (protocol, t3) ← t2.next
        let t4 ← t3.check_equal [";", "configured_NAD", "="]
        let (ntok, t5) ← t4.next
        let nv ← parse_integer ntok
        let r1 := { r0 with configured_nad := nv % 2 ^ 8 }
        let t6 ← t5.check_equal [";"]
        let pk ← t6.peek
        let (r2, t7) ←
          if pk = "initial_NAD" then do
            let t' ← t6.check_equal ["initial_NAD", "="]
            let (itok, t'') ← t'.next
            let iv ← parse_integer itok
            let t3' ← t''.check_equal [";"]
            pure ({ r1 with initial_nad := some (iv % 2 ^ 8) }, t3')
          else pure (r1, t6)
        let (r3, t8) ←
          if protocol.toList.take 3 = ['"', '2', '.'] then do
            let t' ← t7.check_equal ["product_id", "="]
            let (stok, ta) ← t'.next
            let sv ← parse_integer stok
            let tb ← ta.check_equal [","]
            let (ftok, tc) ← tb.next
            let fv ← parse_integer ftok
            let pk2 ← tc.peek
            let (variant, td) ←
              if pk2 = "," then do
                let (_, tx) ← tc.next
                let (vtok, ty) ← tx.next
                let vv ← parse_integer vtok
                pure (vv % 2 ^ 8, ty)
              else pure ((0 : Nat), tc)
            let r' := { r2 with
              product_id := some (sv % 2 ^ 16, fv % 2 ^ 16, variant) }
            let te ← td.check_equal [";", "response_error", "="]
            let (re, tf) ← te.next
            if ¬ alContains sigs re then .error .UnknownSignal
            else do
              let r'' := { r' with response_error := some re }
              let tg ← tf.check_equal [";"]
              let th ← skipDiagFields
                ["fault_state_signals", "P2_min", "ST_min",
                 "N_As_timeout", "N_Cr_timeout"] tg
              let ti ← th.check_equal ["configurable_frames", "\x7b"]
              let (tj, cfgs) ← configFramesLoop (ti.data.length + 1) ti msgs
                evts r''.configurable_frames
              let (_, tk) ← tj.next
              pure ({ r'' with configurable_frames := cfgs }, tk)
          else pure (r2, t7)
        let (_, t9) ← t8.next
        nodeAttrsLoop n t9 sigs msgs evts (alInsert resp name r3)

/-- The `for i in 0..len` raw-byte field reader used by several schedule
commands (read an integer, then `,` between fields and `}` after the
last; ldf.rs lines 605-613 et al.). -/
def readByteFields : Nat → Tokenizer → Except Error (List Nat × Tokenizer)
  | 0, t => .ok ([], t)
  | 1, t => do
    let (tok, t1) ← t.next
    let v ← parse_integer tok
    let t2 ← t1.check_equal ["\x7d"]
    .ok ([v % 2 ^ 8], t2)
  | k + 2, t => do
    let (tok, t1) ← t.next
    let v ← parse_integer tok
    let t2 ← t1.check_equal [","]
    let (vs, t3) ← readByteFields (k + 1) t2
    .ok ((v % 2 ^ 8) :: vs, t3)

/-- Schedule-command keyword dispatch (ldf.rs lines 591-719). -/
def parseScheduleCommand (t : Tokenizer) (cmd : String)
    (resp : List (String × LINResponderData)) (msgs : List (String × Message))
    (spor : List (String × List String))
    (evts : List (String × (String × Nat × List String))) :
    Except Error (LDFScheduleCommand × Tokenizer) :=
  if cmd = "MasterReq" then .ok (.CommanderReq, t)
  else if cmd = "SlaveResp" then .ok (.ResponderResp, t)
  else if cmd = "AssignNAD" then do
    let t1 ← t.check_equal ["\x7b"]
    let (node, t2) ← t1.next
    if ¬ alContains resp node then .error .UnknownNode
    else do
      let t3 ← t2.check_equal ["\x7d"]
      .ok (.AssignNAD node, t3)
  else if cmd = "ConditionalChangeNAD" then do
    let t1 ← t.check_equal ["\x7b"]
    let (fs, t2) ← readByteFields 6 t1
    .ok (.ConditionalChangeNAD (fs.getD 0 0) (fs.getD 1 0) (fs.getD 2 0)
      (fs.getD 3 0) (fs.getD 4 0) (fs.getD 5 0), t2)
  else if cmd = "DataDump" then do
    let t1 ← t.check_equal ["\x7b"]
    let (node, t2) ← t1.next
    if ¬ alContains resp node then .error .UnknownNode
    else do
      let t3 ← t2.check_equal [","]
      let (ds, t4) ← readByteFields 5 t3
      .ok (.DataDump node ds, t4)
  else if cmd = "SaveConfiguration" then do
    let t1 ← t.check_equal ["\x7b"]
    let (node, t2) ← t1.next
    if ¬ alContains resp node then .error .UnknownNode
    else do
      let t3 ← t2.check_equal ["\x7d"]
      .ok (.SaveConfiguration node, t3)
  else if cmd = "AssignFrameIdRange" then do
    let t1 ← t.check_equal ["\x7b"]
    let (node, t2) ← t1.next
    if ¬ alContains resp node then .error .UnknownNode
    else do
      let t3 ← t2.check_equal [","]
      let (itok, t4) ← t3.next
      let iv ← parse_integer itok
      let pk ← t4.peek
      if pk = "," then do
        let (_, t5) ← t4.next
        let (pid, t6) ← readByteFields 4 t5
        .ok (.AssignFrameIdRange node (iv % 2 ^ 8) pid, t6)
      else do
        -- deriving the PID from configurable_frames is unimplemented in the
        -- source; it defaults to all-0xFF with a warning
        let t5 ← t4.check_equal ["\x7d"]
        .ok (.AssignFrameIdRange node (iv % 2 ^ 8) [255, 255, 255, 255], t5)
  else if cmd = "FreeFormat" then do
    let t1 ← t.check_equal ["\x7b"]
    let (ds, t2) ← readByteFields 8 t1
    .ok (.FreeFormat ds, t2)
  else if cmd = "AssignFrameId" then do
    let t1 ← t.check_equal ["\x7b"]
    let (node, t2) ← t1.next
    if ¬ alContains resp node then .error .UnknownNode
    else do
      let t3 ← t2.check_equal [","]
      let (frame, t4) ← t3.next
      if ¬ alContains msgs frame then .error .UnknownFrame
      else do
        let t5 ← t4.check_equal ["\x7d"]
        .ok (.AssignFrameId node frame, t5)
  else
    if (!alContains msgs cmd) && (!alContains spor cmd) && (!alContains evts cmd)
    then .error .UnknownFrame
    else .ok (.Frame cmd, t)

/-- Per-entry loop of one schedule table (ldf.rs lines 588-724). -/
def scheduleEntriesLoop : Nat → Tokenizer →
    List (String × LINResponderData) → List (String × Message) →
    List (String × List String) →
    List (String × (String × Nat × List String)) →
    List (LDFScheduleCommand × ℚ) →
    Except Error (Tokenizer × List (LDFScheduleCommand × ℚ))
  | 0, _, _, _, _, _, _ => .error .NotImplemented
  | n + 1, t, resp, msgs, spor, evts, table => do
    let p ← t.peek
    if p = "\x7d" then .ok (t, table)
    else do
      let (cmd, t1) ← t.next
      let (command, t2) ← parseScheduleCommand t1 cmd resp msgs spor evts
      let t3 ← t2.check_equal ["delay"]
      let (dtok, t4) ← t3.next
      let frame_time ← parse_real_or_integer dtok
      let t5 ← t4.check_equal ["ms", ";"]
      scheduleEntriesLoop n t5 resp msgs spor evts (table ++ [(command, frame_time)])

/-- Per-table loop of the `ScheduleTable` state (ldf.rs lines 584-727). -/
def scheduleTablesLoop : Nat → Tokenizer →
    List (String × LINResponderData) → List (String × Message) →
    List (String × List String) →
    List (String × (String × Nat × List String)) →
    List (String × List (LDFScheduleCommand × ℚ)) →
    Except Error (Tokenizer × List (String × List (LDFScheduleCommand × ℚ)))
  | 0, _, _, _, _, _, _ => .error .NotImplemented
  | n + 1, t, resp, msgs, spor, evts, tables => do
    let p ← t.peek
    if p = "\x7d" then .ok (t, tables)
    else do
      let (name, t1) ← t.next
      let t2 ← t1.check_equal ["\x7b"]
      let (t3, table) ← scheduleEntriesLoop (t2.data.length + 1) t2 resp msgs
        spor evts []
      let (_, t4) ← t3.next
      scheduleTablesLoop n t4 resp msgs spor evts (alInsert tables name table)

/-- Per-entry loop inside one encoding block (ldf.rs lines 771-816). -/
def encodingEntriesLoop : Nat → Tokenizer → String →
    List (String × List Encoding) → List (String × Nat) →
    Except Error (Tokenizer × List (String × List Encoding) ×
      List (String × Nat))
  | 0, _, _, _, _ => .error .NotImplemented
  | n + 1, t, name, encs, logicals => do
    let p ← t.peek
    if p = "\x7d" then .ok (t, encs, logicals)
    else do
      let (tok, t1) ← t.next
      let (t2, encs1, logicals1) ←
        if tok = "logical_value" then do
          let t' ← t1.check_equal [","]
          let (vtok, t'') ← t'.next
          let v ← parse_integer vtok
          let pk ← t''.peek
          if pk = "," then do
            let (_, ta) ← t''.next
            let (label, tb) ← ta.next
            pure (tb, encs, alInsert logicals label v)
          else
            -- a logical value without text is ignored with a warning
            pure (t'', encs, logicals)
        else if tok = "physical_value" then do
          let ta ← t1.check_equal [","]
          let (mintok, tb) ← ta.next
          let raw_min ← parse_integer mintok
          let tc ← tb.check_equal [","]
          let (maxtok, td) ← tc.next
          let raw_max ← parse_integer maxtok
          let te ← td.check_equal [","]
          let (sctok, tf) ← te.next
          let scale ← parse_real_or_integer sctok
          let tg ← tf.check_equal [","]
          let (oftok, th) ← tg.next
          let offset ← parse_real_or_integer oftok
          let pk ← th.peek
          let (unit, ti) ←
            if pk = "," then do
              let (_, tx) ← th.next
              let (u, ty) ← tx.next
              pure (u, ty)
            else pure ("", th)
          pure (ti, alModify encs name (fun l =>
            l ++ [Encoding.Scalar raw_min raw_max scale offset unit]), logicals)
        else if tok = "bcd_value" then pure (t1, encs, logicals)
        else if tok = "ascii_value" then pure (t1, encs, logicals)
        else .error .IncorrectToken
      let t3 ← t2.check_equal [";"]
      encodingEntriesLoop n t3 name encs1 logicals1

/-- Per-block loop of the `SignalEncodingTypes` state
(ldf.rs lines 763-824). -/
def encodingBlocksLoop : Nat → Tokenizer → List (String × List Encoding) →
    Except Error (Tokenizer × List (String × List Encoding))
  | 0, _, _ => .error .NotImplemented
  | n + 1, t, encs => do
    let p ← t.peek
    if p = "\x7d" then .ok (t, encs)
    else do
      let (name, t1) ← t.next
      if alContains encs name then .error .DuplicateEncoding
      else do
        let encs0 := alInsert encs name []
        let t2 ← t1.check_equal ["\x7b"]
        let (t3, encs1, logicals) ←
          encodingEntriesLoop (t2.data.length + 1) t2 name encs0 []
        let (_, t4) ← t3.next
        let encs2 :=
          if logicals.isEmpty then encs1
          else alModify encs1 name (fun l => l ++ [Encoding.Enum name logicals])
        encodingBlocksLoop n t4 encs2

/-- The fixed 16-slot `Diagnostic_signals` literal template
(ldf.rs lines 329-349). -/
def diagSignalTemplate : List String :=
  ["Diagnostic_signals", "\x7b",
   "MasterReqB0", ":", "8", ",", "0", ";",
   "MasterReqB1", ":", "8", ",", "0", ";",
   "MasterReqB2", ":", "8", ",", "0", ";",
   "MasterReqB3", ":", "8", ",", "0", ";",
   "MasterReqB4", ":", "8", ",", "0", ";",
   "MasterReqB5", ":", "8", ",", "0", ";",
   "MasterReqB6", ":", "8", ",", "0", ";",
   "MasterReqB7", ":", "8", ",", "0", ";",
   "SlaveRespB0", ":", "8", ",", "0", ";",
   "SlaveRespB1", ":", "8", ",", "0", ";",
   "SlaveRespB2", ":", "8", ",", "0", ";",
   "SlaveRespB3", ":", "8", ",", "0", ";",
   "SlaveRespB4", ":", "8", ",", "0", ";",
   "SlaveRespB5", ":", "8", ",", "0", ";",
   "SlaveRespB6", ":", "8", ",", "0", ";",
   "SlaveRespB7", ":", "8", ",", "0", ";",
   "\x7d"]

/-- The fixed two-frame `Diagnostic_frames` literal template
(ldf.rs lines 479-502). -/
def diagFrameTemplate : List String :=
  ["Diagnostic_frames", "\x7b",
   "MasterReq", ":", "60", "\x7b",
   "MasterReqB0", ",", "0", ";",
   "MasterReqB1", ",", "8", ";",
   "MasterReqB2", ",", "16", ";",
   "MasterReqB3", ",", "24", ";",
   "MasterReqB4", ",", "32", ";",
   "MasterReqB5", ",", "40", ";",
   "MasterReqB6", ",", "48", ";",
   "MasterReqB7", ",", "56", ";",
   "\x7d",
   "SlaveResp", ":", "61", "\x7b",
   "SlaveRespB0", ",", "0", ";",
   "SlaveRespB1", ",", "8", ";",
   "SlaveRespB2", ",", "16", ";",
   "SlaveRespB3", ",", "24", ";",
   "SlaveRespB4", ",", "32", ";",
   "SlaveRespB5", ",", "40", ";",
   "SlaveRespB6", ",", "48", ";",
   "SlaveRespB7", ",", "56", ";",
   "\x7d",
   "\x7d"]

/-- One transition of the grammar state machine (the body of the `match
state` of ldf.rs lines 201-843); returns the successor state and updated
parser data. -/
def step : ParserState → PState → Except Error (ParserState × PState)
  | .Header, ps => do
    let t ← ps.toks.check_equal ["LIN_description_file", ";"]
    .ok (.ProtocolVersion, { ps with toks := t })
  | .ProtocolVersion, ps => do
    let t1 ← ps.toks.check_equal ["LIN_protocol_version", "="]
    -- the version string is compared against "2.2" only for a warning
    let (_ver, t2) ← t1.next
    let t3 ← t2.check_equal [";"]
    .ok (.LanguageVersion, { ps with toks := t3 })
  | .LanguageVersion, ps => do
    let t1 ← ps.toks.check_equal ["LIN_language_version", "="]
    let (_ver, t2) ← t1.next
    let t3 ← t2.check_equal [";"]
    .ok (.Speed, { ps with toks := t3 })
  | .Speed, ps => do
    let t1 ← ps.toks.check_equal ["LIN_speed", "="]
    let (btok, t2) ← t1.next
    let b ← parse_real_or_integer btok
    let t3 ← t2.check_equal ["kbps", ";"]
    let p ← t3.peek
    let st' := if p = "Channel_name" then ParserState.ChannelName
               else ParserState.Node
    .ok (st', { ps with toks := t3, data := { ps.data with bitrate := b * 1000 } })
  | .ChannelName, ps => do
    let t1 ← ps.toks.check_equal ["Channel_name", "="]
    let (pf, t2) ← t1.next
    let t3 ← t2.check_equal [";"]
    .ok (.Node, { ps with
                    toks := t3
                    data := { ps.data with channel_suffix := pf } })
  | .Node, ps => do
    let t1 ← ps.toks.check_equal ["Nodes", "\x7b", "Master", ":"]
    let (commander, t2) ← t1.next
    let t3 ← t2.check_equal [","]
    let (tbtok, t4) ← t3.next
    let time_base ← parse_real_or_integer tbtok
    let t5 ← t4.check_equal ["ms", ","]
    let (jtok, t6) ← t5.next
    let jitter ← parse_real_or_integer jtok
    let t7 ← t6.check_equal ["ms", ";", "Slaves", ":"]
    let (t8, resp) ← respNamesLoop (t7.data.length + 1) t7 ps.data.responders
    let t9 ← t8.check_equal ["\x7d"]
    let p ← t9.peek
    let st' := if p = "composite" then ParserState.NodeComposition
               else ParserState.Signal
    .ok (st', { ps with
                  toks := t9
                  data := { ps.data with
                              commander := commander
                              time_base := time_base
                              jitter := jitter
                              responders := resp } })
  | .NodeComposition, ps => do
    -- node composition is unsupported: the section is brace-skipped
    let t1 ← ps.toks.check_equal ["composite", "\x7b"]
    let t2 ← skipDepthLoop (t1.data.length + 1) t1 1
    .ok (.Signal, { ps with toks := t2 })
  | .Signal, ps => do
    let t1 ← ps.toks.check_equal ["Signals", "\x7b"]
    let (t2, resp, sigs) ←
      signalsLoop (t1.data.length + 1) t1 ps.data.responders ps.db.signals
    let (_, t3) ← t2.next
    let p ← t3.peek
    let st' := if p = "Diagnostic_signals" then ParserState.DiagnosticSignal
               else ParserState.Frame
    .ok (st', { ps with
                  toks := t3
                  db := { ps.db with signals := sigs }
                  data := { ps.data with responders := resp } })
  | .DiagnosticSignal, ps => do
    let t1 ← ps.toks.check_equal diagSignalTemplate
    .ok (.Frame, { ps with toks := t1 })
  | .Frame, ps => do
    let t1 ← ps.toks.check_equal ["Frames", "\x7b"]
    let (t2, sigs, msgs) ←
      framesLoop (t1.data.length + 1) t1 ps.db.signals ps.db.messages
    let (_, t3) ← t2.next
    let p ← t3.peek
    let st' :=
      if p = "Sporadic_frames" then ParserState.SporadicFrame
      else if p = "Event_triggered_frames" then ParserState.EventTriggeredFrame
      else if p = "Diagnostic_frames" then ParserState.DiagnosticFrame
      else ParserState.NodeAttributes
    .ok (st', { ps with
                  toks := t3
                  db := { ps.db with signals := sigs, messages := msgs } })
  | .SporadicFrame, ps => do
    let t1 ← ps.toks.check_equal ["Sporadic_frames", "\x7b"]
    let (t2, spor) ← sporadicLoop (t1.data.length + 1) t1 ps.db.messages
      ps.data.commander ps.data.sporadic_frames
    let (_, t3) ← t2.next
    let p ← t3.peek
    let st' :=
      if p = "Event_triggered_frames" then ParserState.EventTriggeredFrame
      else if p = "Diagnostic_frames" then ParserState.DiagnosticFrame
      else ParserState.NodeAttributes
    .ok (st', { ps with
                  toks := t3
                  data := { ps.data with sporadic_frames := spor } })
  | .EventTriggeredFrame, ps => do
    let t1 ← ps.toks.check_equal ["Event_triggered_frames", "\x7b"]
    let (t2, evts) ← eventLoop (t1.data.length + 1) t1 ps.db.messages
      ps.data.sporadic_frames ps.data.event_frames
    let (_, t3) ← t2.next
    let p ← t3.peek
    let st' :=
      if p = "Diagnostic_frames" then ParserState.DiagnosticFrame
      else ParserState.NodeAttributes
    .ok (st', { ps with
                  toks := t3
                  data := { ps.data with event_frames := evts } })
  | .DiagnosticFrame, ps => do
    let t1 ← ps.toks.check_equal diagFrameTemplate
    .ok (.NodeAttributes, { ps with toks := t1 })
  | .NodeAttributes, ps => do
    let t1 ← ps.toks.check_equal ["Node_attributes", "\x7b"]
    let (t2, resp) ← nodeAttrsLoop (t1.data.length + 1) t1 ps.db.signals
      ps.db.messages ps.data.event_frames ps.data.responders
    let (_, t3) ← t2.next
    .ok (.ScheduleTable, { ps with
                             toks := t3
                             data := { ps.data with responders := resp } })
  | .ScheduleTable, ps => do
    let t1 ← ps.toks.check_equal ["Schedule_tables", "\x7b"]
    let (t2, tables) ← scheduleTablesLoop (t1.data.length + 1) t1
      ps.data.responders ps.db.messages ps.data.sporadic_frames
      ps.data.event_frames ps.data.schedule_tables
    let (_, t3) ← t2.next
    let ps' := { ps with
                   toks := t3
                   data := { ps.data with schedule_tables := tables } }
    -- `if let Ok(tok) = tokens.peek()`: ANY tokenizer error is treated as
    -- end of input here (ldf.rs lines 729-738)
    match t3.peek with
    | .ok tok =>
      if tok = "Signal_groups" then .ok (.SignalGroups, ps')
      else if tok = "Signal_encoding_types" then .ok (.SignalEncodingTypes, ps')
      else if tok = "Signal_representation" then .ok (.SignalRepresentation, ps')
      else .error .UnexpectedToken
    | .error _ => .ok (.Done, ps')
  | .SignalGroups, ps => do
    -- signal groups are deprecated: the section is brace-skipped
    let t1 ← ps.toks.check_equal ["Signal_groups", "\x7b"]
    let t2 ← skipDepthLoop (t1.data.length + 1) t1 1
    let ps' := { ps with toks := t2 }
    match t2.peek with
    | .ok tok =>
      if tok = "Signal_encoding_types" then .ok (.SignalEncodingTypes, ps')
      else if tok = "Signal_representation" then .ok (.SignalRepresentation, ps')
      else .error .UnexpectedToken
    | .error _ => .ok (.Done, ps')
  | .SignalEncodingTypes, ps => do
    let t1 ← ps.toks.check_equal ["Signal_encoding_types", "\x7b"]
    let (t2, encs) ← encodingBlocksLoop (t1.data.length + 1) t1 ps.encodings
    let (_, t3) ← t2.next
    let ps' := { ps with toks := t3, encodings := encs }
    match t3.peek with
    | .ok tok =>
      if tok = "Signal_representation" then .ok (.SignalRepresentation, ps')
      else .error .UnexpectedToken
    | .error _ => .ok (.Done, ps')
  | .SignalRepresentation, ps =>
    -- parsing this section is unimplemented: any remaining token is a hard
    -- error (ldf.rs lines 835-841)
    match ps.toks.peek with
    | .ok _ => .error .UnexpectedToken
    | .error _ => .ok (.Done, ps)
  | .Done, ps => .ok (.Done, ps)

/-- The `while !matches!(state, Done)` driver loop of `parse_ldf`
(ldf.rs lines 200-844) plus the epilogue that stores the LDF metadata
(lines 854-855).  The parse-local `encodings` map of `ps` is dropped. -/
def runState : Nat → ParserState → PState → Except Error Database
  | 0, _, _ => .error .NotImplemented
  | n + 1, st, ps =>
    if st = .Done then .ok { ps.db with extra := .LDF ps.data }
    else do
      let (st', ps') ← step st ps
      runState n st' ps'

/-- `parse_ldf` (ldf.rs lines 192-856), taking the file contents directly
(the `Tokenizer::new` file read and its `Error::IO` path are not modelled).
The section sequence is acyclic with at most 19 distinct states, so fuel 32
is never exhausted. -/
def parse_ldf (s : String) : Except Error Database :=
  runState 32 .Header
    { toks := { data := s.toList, index := 0 },
      db := Database.default, data := LDFData.default, encodings := [] }

/-! ### Concrete inputs and their expected parses -/

/-- The concrete scenario input of §8 of the spec: minimal header, one
commander `ECU1`, one responder `ECU2`, one signal `Sig1`, one frame
`Frame1`, empty `Node_attributes` and `Schedule_tables` sections. -/
def inputScenario : String :=
  "LIN_description_file; LIN_protocol_version = \"2.2\"; " ++
  "LIN_language_version = \"2.2\"; LIN_speed = 19.2 kbps; " ++
  "Nodes \x7b Master: ECU1, 10 ms, 0.1 ms; Slaves: ECU2; \x7d " ++
  "Signals \x7b Sig1: 8, 0, ECU1, ECU2; \x7d " ++
  "Frames \x7b Frame1: 1, ECU1, 1 \x7b Sig1, 0; \x7d \x7d " ++
  "Node_attributes \x7b \x7d Schedule_tables \x7b \x7d"

/-- The Database that `parse_ldf` produces for `inputScenario`. -/
def dbScenario : Database :=
  { signals := [("Sig1",
      { signed := false, little_endian := true, bit_start := 0,
        bit_width := 8, init_value := 0, encodings := [] })],
    messages := [("Frame1",
      { sender := "ECU1", id := 1, byte_width := 1, signals := ["Sig1"],
        mux_signals := [] })],
    extra := .LDF
      { bitrate := 19200, channel_suffix := "", commander := "ECU1",
        time_base := 10, jitter := 1 / 10,
        responders := [("ECU2",
          { subscribed_signals := ["Sig1"], configured_nad := 0,
            initial_nad := none, product_id := none, response_error := none,
            configurable_frames := [] })],
        sporadic_frames := [], event_frames := [], schedule_tables := [] } }

/-- `inputScenario` extended with a second frame `Frame2` sent by the
responder `ECU2` and a `Sporadic_frames` section whose groups each list a
single constituent: `SG1` names a nonexistent frame, `SG2` names the
responder-sent `Frame2`. -/
def inputSporadicSole : String :=
  "LIN_description_file; LIN_protocol_version = \"2.2\"; " ++
  "LIN_language_version = \"2.2\"; LIN_speed = 19.2 kbps; " ++
  "Nodes \x7b Master: ECU1, 10 ms, 0.1 ms; Slaves: ECU2; \x7d " ++
  "Signals \x7b Sig1: 8, 0, ECU1, ECU2; \x7d " ++
  "Frames \x7b Frame1: 1, ECU1, 1 \x7b Sig1, 0; \x7d " ++
  "Frame2: 2, ECU2, 1 \x7b \x7d \x7d " ++
  "Sporadic_frames \x7b SG1: Ghost; SG2: Frame2; \x7d " ++
  "Node_attributes \x7b \x7d Schedule_tables \x7b \x7d"

/-- The Database that `parse_ldf` produces for `inputSporadicSole`:
the parse SUCCEEDS, with the nonexistent `Ghost` and the responder-sent
`Frame2` recorded as sole group constituents. -/
def dbSporadicSole : Database :=
  { signals := [("Sig1",
      { signed := false, little_endian := true, bit_start := 0,
        bit_width := 8, init_value := 0, encodings := [] })],
    messages := [("Frame1",
      { sender := "ECU1", id := 1, byte_width := 1, signals := ["Sig1"],
        mux_signals := [] }),
      ("Frame2",
      { sender := "ECU2", id := 2, byte_width := 1, signals := [],
        mux_signals := [] })],
    extra := .LDF
      { bitrate := 19200, channel_suffix := "", commander := "ECU1",
        time_base := 10, jitter := 1 / 10,
        responders := [("ECU2",
          { subscribed_signals := ["Sig1"], configured_nad := 0,
            initial_nad := none, product_id := none, response_error := none,
            configurable_frames := [] })],
        sporadic_frames := [("SG1", ["Ghost"]), ("SG2", ["Frame2"])],
        event_frames := [], schedule_tables := [] } }

/-- `inputScenario` extended with a `Signal_encoding_types` section that
declares the block name `Enc1` twice. -/
def inputDupEncoding : String :=
  inputScenario ++
  " Signal_encoding_types \x7b Enc1 \x7b physical_value, 0, 255, 1, 0; \x7d " ++
  "Enc1 \x7b \x7d \x7d"

/-- `inputScenario` with the frame body referencing the undeclared signal
name `Ghost`. -/
def inputUnknownSignal : String :=
  "LIN_description_file; LIN_protocol_version = \"2.2\"; " ++
  "LIN_language_version = \"2.2\"; LIN_speed = 19.2 kbps; " ++
  "Nodes \x7b Master: ECU1, 10 ms, 0.1 ms; Slaves: ECU2; \x7d " ++
  "Signals \x7b Sig1: 8, 0, ECU1; \x7d " ++
  "Frames \x7b Frame1: 1, ECU1, 1 \x7b Ghost, 0; \x7d \x7d"

/-- `inputScenario` with the frame body placing `Sig1` twice. -/
def inputDupSignal : String :=
  "LIN_description_file; LIN_protocol_version = \"2.2\"; " ++
  "LIN_language_version = \"2.2\"; LIN_speed = 19.2 kbps; " ++
  "Nodes \x7b Master: ECU1, 10 ms, 0.1 ms; Slaves: ECU2; \x7d " ++
  "Signals \x7b Sig1: 8, 0, ECU1; \x7d " ++
  "Frames \x7b Frame1: 1, ECU1, 1 \x7b Sig1, 0; Sig1, 0; \x7d \x7d"

/-- A signal declared with bit width 65. -/
def inputWide65 : String :=
  "LIN_description_file; LIN_protocol_version = \"2.2\"; " ++
  "LIN_language_version = \"2.2\"; LIN_speed = 19.2 kbps; " ++
  "Nodes \x7b Master: ECU1, 10 ms, 0.1 ms; Slaves: ECU2; \x7d " ++
  "Signals \x7b Sig1: 65, 0, ECU1; \x7d"

/-- A full input whose only signal is declared with bit width 64. -/
def inputWide64 : String :=
  "LIN_description_file; LIN_protocol_version = \"2.2\"; " ++
  "LIN_language_version = \"2.2\"; LIN_speed = 19.2 kbps; " ++
  "Nodes \x7b Master: ECU1, 10 ms, 0.1 ms; Slaves: ECU2; \x7d " ++
  "Signals \x7b Sig1: 64, 0, ECU1, ECU2; \x7d " ++
  "Frames \x7b Frame1: 1, ECU1, 8 \x7b Sig1, 0; \x7d \x7d " ++
  "Node_attributes \x7b \x7d Schedule_tables \x7b \x7d"

/-- The Database that `parse_ldf` produces for `inputWide64`. -/
def dbWide64 : Database :=
  { signals := [("Sig1",
      { signed := false, little_endian := true, bit_start := 0,
        bit_width := 64, init_value := 0, encodings := [] })],
    messages := [("Frame1",
      { sender := "ECU1", id := 1, byte_width := 8, signals := ["Sig1"],
        mux_signals := [] })],
    extra := .LDF
      { bitrate := 19200, channel_suffix := "", commander := "ECU1",
        time_base := 10, jitter := 1 / 10,
        responders := [("ECU2",
          { subscribed_signals := ["Sig1"], configured_nad := 0,
            initial_nad := none, product_id := none, response_error := none,
            configurable_frames := [] })],
        sporadic_frames := [], event_frames := [], schedule_tables := [] } }

/-- `inputScenario` with a malformed comment opener (`/x`) as trailing text
after the last successfully parsed section. -/
def inputTrailingBadComment : String := inputScenario ++ " /x"

/-- An input with a malformed comment opener in the middle of the file. -/
def inputMidBadComment : String :=
  "LIN_description_file; /x LIN_protocol_version = \"2.2\";"

/-- A frame body that places `Sig1` twice, the first time at bit offset
65535 — the `u16` value that doubles as the `BIT_START_INVALID` sentinel. -/
def inputSentinelOffset : String :=
  "LIN_description_file; LIN_protocol_version = \"2.2\"; " ++
  "LIN_language_version = \"2.2\"; LIN_speed = 19.2 kbps; " ++
  "Nodes \x7b Master: ECU1, 10 ms, 0.1 ms; Slaves: ECU2; \x7d " ++
  "Signals \x7b Sig1: 8, 0, ECU1; \x7d " ++
  "Frames \x7b Frame1: 1, ECU1, 1 \x7b Sig1, 65535; Sig1, 1; \x7d \x7d " ++
  "Node_attributes \x7b \x7d Schedule_tables \x7b \x7d"

/-- The Database that `parse_ldf` produces for `inputSentinelOffset`: the
parse SUCCEEDS (no `DuplicateSignal`), the first assignment having been
indistinguishable from "unset". -/
def dbSentinelOffset : Database :=
  { signals := [("Sig1",
      { signed := false, little_endian := true, bit_start := 1,
        bit_width := 8, init_value := 0, encodings := [] })],
    messages := [("Frame1",
      { sender := "ECU1", id := 1, byte_width := 1,
        signals := ["Sig1", "Sig1"], mux_signals := [] })],
    extra := .LDF
      { bitrate := 19200, channel_suffix := "", commander := "ECU1",
        time_base := 10, jitter := 1 / 10,
        responders := [("ECU2",
          { subscribed_signals := [], configured_nad := 0,
            initial_nad := none, product_id := none, response_error := none,
            configurable_frames := [] })],
        sporadic_frames := [], event_frames := [], schedule_tables := [] } }

/-- The invariant maintained for the signal table throughout the parse:
every stored `Signal` respects `MAX_SIGNAL_WIDTH` and carries no
encodings. -/
def SigInv (sigs : List (String × Signal)) : Prop :=
  ∀ p ∈ sigs, p.2.bit_width ≤ MAX_SIGNAL_WIDTH ∧ p.2.encodings = []

/-- `inputScenario` followed by a `Signal_representation` section. -/
def inputSigRepAfterSchedule : String :=
  inputScenario ++ " Signal_representation \x7b \x7d"

/-- `inputScenario` followed by `Signal_groups` then `Signal_representation`. -/
def inputSigRepAfterGroups : String :=
  inputScenario ++ " Signal_groups \x7b \x7d Signal_representation \x7b \x7d"

/-- `inputScenario` followed by `Signal_encoding_types` then
`Signal_representation`. -/
def inputSigRepAfterEncodings : String :=
  inputScenario ++
  " Signal_encoding_types \x7b \x7d Signal_representation \x7b \x7d"

end Autodbconv

/- The Batteries rational-number operations are `@[irreducible]` by default;
re-enabling unfolding lets the concrete parses below be checked by `rfl`
(the kernel never respects reducibility attributes, so this changes nothing
about what is provable). -/
attribute [local semireducible] Rat.mul Rat.add Rat.inv Rat.sub Rat.ofScientific

set_option maxRecDepth 100000

namespace Autodbconv

/-! ### Plumbing lemmas for `Except` -/

/-- Successful bind decomposes into a successful action and continuation. -/
theorem ebind_ok_iff {α β : Type} {x : Except Error α} {f : α → Except Error β}
    {b : β} : (x >>= f) = .ok b ↔ ∃ a, x = .ok a ∧ f a = .ok b := by
  cases x <;> simp [Bind.bind, Except.bind]

/-- `pure` succeeds with exactly its argument. -/
theorem epure_ok_iff {α : Type} {a b : α} :
    (pure a : Except Error α) = .ok b ↔ a = b := by
  simp [pure, Except.pure]

/-- A failed action fails the whole bind. -/
theorem ebind_err {α β : Type} (e : Error) (f : α → Except Error β) :
    ((Except.error e : Except Error α) >>= f) = .error e := rfl

/-- Bind on a success reduces to the continuation. -/
theorem ebind_ok {α β : Type} (a : α) (f : α → Except Error β) :
    ((Except.ok a : Except Error α) >>= f) = f a := rfl

/-! ### C4: the concrete end-to-end scenario -/

/-- C4: parsing the concrete scenario input (header, 19.2 kbps, commander
ECU1, responder ECU2, signal Sig1 of width 8, frame Frame1 id 1 sender
ECU1 byte width 1 placing Sig1 at offset 0, empty Node_attributes and
Schedule_tables) returns Ok with exactly the claimed Database: bitrate
19200, one signal Sig1 (bit_width 8, bit_start 0), one message Frame1
(id 1, sender ECU1, byte_width 1), extra = LDF data with commander ECU1
and one responder ECU2 subscribed to Sig1. -/
theorem C4_scenario_parse : parse_ldf inputScenario = .ok dbScenario := rfl

/-! ### C2: DuplicateEncoding is raised but missing from error.rs -/

/-- C2: re-declaring the encoding-block name `Enc1` in the
Signal_encoding_types section makes the parse fail with
`DuplicateEncoding`, exactly as ldf.rs lines 765-766 demand — but the
`Error` enum declared in src/parsers/error.rs contains no
`DuplicateEncoding` variant at all, so the error kind the parser raises
does not exist in the taxonomy the caller receives: the two source files
contradict each other. -/
theorem C2_dup_encoding_missing_variant :
    parse_ldf inputDupEncoding = .error .DuplicateEncoding ∧
      "DuplicateEncoding" ∉ errorRsVariants :=
  ⟨rfl, by decide⟩

/-! ### C8: determinism -/

/-- C8: `parse_ldf` is deterministic — two runs on the identical text give
results that are equal field-for-field (the parser never iterates a
hash map, only looks maps up by key, so its embedding is a pure
function). -/
theorem C8_deterministic (s : String) (r₁ r₂ : Except Error Database)
    (h₁ : parse_ldf s = r₁) (h₂ : parse_ldf s = r₂) : r₁ = r₂ :=
  h₁ ▸ h₂ ▸ rfl

/-- Witness for C8 at the concrete scenario input. -/
theorem C8_deterministic_witness :
    (Except.ok dbScenario : Except Error Database) = .ok dbScenario :=
  C8_deterministic inputScenario (.ok dbScenario) (.ok dbScenario) rfl rfl

/-! ### C10: the SignalRepresentation state rejects any remaining token -/

/-- C10: whenever the parser enters the `SignalRepresentation` state with
any token still available (in particular the section's own introductory
`Signal_representation` literal, which the preceding dispatch never
consumed), the parse returns `UnexpectedToken`; consequently an input
containing a `Signal_representation` section after `Schedule_tables`,
`Signal_groups` or `Signal_encoding_types` never parses successfully. -/
theorem C10_signal_representation_rejected :
    (∀ (n : Nat) (ps : PState) (tok : String), ps.toks.peek = .ok tok →
      runState (n + 1) .SignalRepresentation ps = .error .UnexpectedToken) ∧
    parse_ldf inputSigRepAfterSchedule = .error .UnexpectedToken ∧
    parse_ldf inputSigRepAfterGroups = .error .UnexpectedToken ∧
    parse_ldf inputSigRepAfterEncodings = .error .UnexpectedToken := by
  refine ⟨fun n ps tok h => ?_, rfl, rfl, rfl⟩
  simp only [runState, step, h]
  rfl

/-- Witness for C10's universal conjunct: a parser state whose tokenizer
holds one remaining token. -/
theorem C10_signal_representation_witness :
    runState 3 .SignalRepresentation
      { toks := { data := "Signal_representation".toList, index := 0 },
        db := Database.default, data := LDFData.default, encodings := [] } =
      .error .UnexpectedToken :=
  C10_signal_representation_rejected.1 2 _ "Signal_representation" rfl

/-! ### C6: `/` is never produced as a token -/

/-- A take that yields a singleton pins down the list head. -/
theorem take_eq_singleton_head {α : Type} {l : List α} {k : Nat} {a : α}
    (h : l.take k = [a]) : l.head? = some a := by
  cases l with
  | nil => rw [List.take_nil] at h; cases h
  | cons x xs =>
    cases k with
    | zero => rw [List.take_zero] at h; cases h
    | succ k =>
      rw [List.take_succ_cons] at h
      simp only [List.cons.injEq] at h
      rw [List.head?_cons, h.1]

/-- Inversion for the tokenizer's skip phase: whenever `searchLoop`
(started in any non-`Found` state) reports `Found p c`, the position `p`
lies at or after the scan start, the character at `p` is `c`, and `c` is
neither `/` (a `/` always enters comment processing instead) nor
whitespace. -/
theorem searchLoop_found_facts (cs : List Char) :
    ∀ (pos : Nat) (cPrev : Char) (st : TokenizerState),
      (∀ i c, st ≠ .Found i c) →
      ∀ {p : Nat} {c : Char},
        searchLoop cs pos cPrev st = .ok (.Found p c) →
        pos ≤ p ∧ ((cs.drop (p - pos)).head? = some c ∧
          (c ≠ '/' ∧ isWhitespaceR c = false)) := by
  induction cs with
  | nil =>
    intro pos cPrev st hst p c h
    simp only [searchLoop, Except.ok.injEq] at h
    exact absurd h (hst p c)
  | cons c₀ rest ih =>
    intro pos cPrev st hst p c h
    have step : ∀ (cPrev' : Char) (st' : TokenizerState),
        (∀ i c', st' ≠ .Found i c') →
        searchLoop rest (pos + 1) cPrev' st' = .ok (.Found p c) →
        pos ≤ p ∧ (((c₀ :: rest).drop (p - pos)).head? = some c ∧
          (c ≠ '/' ∧ isWhitespaceR c = false)) := by
      intro cPrev' st' hst' h'
      obtain ⟨hle, hhead, hf⟩ := ih (pos + 1) cPrev' st' hst' h'
      refine ⟨by omega, ?_, hf⟩
      have hp : p - pos = (p - (pos + 1)) + 1 := by omega
      rw [hp, List.drop_succ_cons]
      exact hhead
    cases st with
    | Search =>
      simp only [searchLoop] at h
      by_cases h1 : c₀ = '/'
      · rw [if_pos h1] at h
        exact step _ _ (fun i c' hh => TokenizerState.noConfusion hh) h
      · rw [if_neg h1] at h
        by_cases h2 : isWhitespaceR c₀ = true
        · rw [if_pos h2] at h
          exact step _ _ (fun i c' hh => TokenizerState.noConfusion hh) h
        · rw [if_neg h2] at h
          simp only [Except.ok.injEq, TokenizerState.Found.injEq] at h
          obtain ⟨rfl, rfl⟩ := h
          exact ⟨Nat.le_refl _,
            by simp, h1, Bool.eq_false_iff.mpr h2⟩
    | ExpectComment =>
      simp only [searchLoop] at h
      by_cases h1 : c₀ = '*'
      · rw [if_pos h1] at h
        exact step _ _ (fun i c' hh => TokenizerState.noConfusion hh) h
      · rw [if_neg h1] at h
        by_cases h2 : c₀ = '/'
        · rw [if_pos h2] at h
          exact step _ _ (fun i c' hh => TokenizerState.noConfusion hh) h
        · rw [if_neg h2] at h
          cases h
    | BlockComment =>
      simp only [searchLoop] at h
      by_cases h1 : cPrev = '*' ∧ c₀ = '/'
      · rw [if_pos h1] at h
        exact step _ _ (fun i c' hh => TokenizerState.noConfusion hh) h
      · rw [if_neg h1] at h
        exact step _ _ (fun i c' hh => TokenizerState.noConfusion hh) h
    | LineComment =>
      simp only [searchLoop] at h
      by_cases h1 : c₀ = '\n'
      · rw [if_pos h1] at h
        exact step _ _ (fun i c' hh => TokenizerState.noConfusion hh) h
      · rw [if_neg h1] at h
        exact step _ _ (fun i c' hh => TokenizerState.noConfusion hh) h
    | CharString b =>
      simp only [searchLoop] at h
      exact step _ _ (fun i c' hh => TokenizerState.noConfusion hh) h
    | Skip =>
      simp only [searchLoop] at h
      exact step _ _ (fun i c' hh => TokenizerState.noConfusion hh) h
    | Stop =>
      simp only [searchLoop] at h
      exact step _ _ (fun i c' hh => TokenizerState.noConfusion hh) h
    | Found i c' => exact absurd rfl (hst i c')

/-- C6 counterexample: at the concrete inputs whose first non-whitespace
character is `/`, the tokenizer never begins a token: a lone trailing `/`
is `ExpectedToken`, and `/` followed by a non-comment character is
`ExpectedComment`. -/
theorem C6_slash_inputs_do_not_tokenize :
    Tokenizer.parse { data := "/".toList, index := 0 } true =
        .error .ExpectedToken ∧
    Tokenizer.parse { data := "/,".toList, index := 0 } true =
        .error .ExpectedComment :=
  ⟨rfl, rfl⟩

/-- C6 (amended): the token phase never begins at a `/` — the skip phase
intercepts every `/` as a comment opener first — so no call of the
tokenizer ever returns the token `"/"`; the other six fixed delimiters
`, ; : = { }` are each producible as exactly-one-character tokens. -/
theorem C6_slash_never_a_token :
    (∀ (t : Tokenizer) (update : Bool) (tok : String) (t' : Tokenizer),
      t.parse update = .ok (tok, t') → tok ≠ "/") ∧
    Tokenizer.parse { data := ", x".toList, index := 0 } true =
      .ok (",", { data := ", x".toList, index := 1 }) ∧
    Tokenizer.parse { data := "; x".toList, index := 0 } true =
      .ok (";", { data := "; x".toList, index := 1 }) ∧
    Tokenizer.parse { data := ": x".toList, index := 0 } true =
      .ok (":", { data := ": x".toList, index := 1 }) ∧
    Tokenizer.parse { data := "= x".toList, index := 0 } true =
      .ok ("=", { data := "= x".toList, index := 1 }) ∧
    Tokenizer.parse { data := "\x7b x".toList, index := 0 } true =
      .ok ("\x7b", { data := "\x7b x".toList, index := 1 }) ∧
    Tokenizer.parse { data := "\x7d x".toList, index := 0 } true =
      .ok ("\x7d", { data := "\x7d x".toList, index := 1 }) := by
  refine ⟨fun t update tok t' h => ?_, rfl, rfl, rfl, rfl, rfl, rfl⟩
  intro heq
  unfold Tokenizer.parse at h
  cases hs : searchLoop (t.data.drop t.index) t.index ' ' .Search with
  | error e => rw [hs] at h; cases h
  | ok st =>
    rw [hs] at h
    cases st with
    | Found startIdx cStart =>
      obtain ⟨hle, hhead, hne, _⟩ :=
        searchLoop_found_facts _ _ _ _ (fun i c hh => TokenizerState.noConfusion hh) hs
      rw [List.drop_drop, Nat.add_sub_cancel' hle] at hhead
      dsimp only at h
      simp only [Except.ok.injEq, Prod.mk.injEq] at h
      obtain ⟨htok, -⟩ := h
      subst heq
      rw [show ("/" : String) = String.mk ['/'] from rfl] at htok
      have hhd : (t.data.drop startIdx).head? = some '/' :=
        take_eq_singleton_head (congrArg String.data htok)
      rw [hhd] at hhead
      exact hne (Option.some.inj hhead).symm
    | Search => cases h
    | ExpectComment => cases h
    | BlockComment => cases h
    | LineComment => cases h
    | CharString b => cases h
    | Skip => cases h
    | Stop => cases h

/-- Witness for C6's universal conjunct: the token produced at the start
of `", x"` is not `"/"`. -/
theorem C6_slash_never_a_token_witness :
    ("," : String) ≠ "/" :=
  C6_slash_never_a_token.1 { data := ", x".toList, index := 0 } true ","
    { data := ", x".toList, index := 1 } rfl

/-! ### C7: malformed comment openers -/

/-- C7 counterexample: the claim says a malformed comment opener as
trailing text after the last section still aborts the parse with
`ExpectedComment`; in fact `parse_ldf` swallows the error (the
end-of-section dispatch treats ANY tokenizer error as end of input,
ldf.rs lines 729-738) and returns the same Ok Database as without the
trailing `/x`. -/
theorem C7_trailing_comment_accepted :
    parse_ldf inputTrailingBadComment = .ok dbScenario := rfl

/-- C7 (amended): whenever the tokenizer's skip phase reaches a `/`
followed by a character that is neither `*` nor `/`, the token request
itself fails with `ExpectedComment`; at every point where `parse_ldf`
propagates tokenizer errors (all token requests except the end-of-input
peeks after the Schedule_tables / Signal_groups / Signal_encoding_types
sections and in Signal_representation) this aborts the whole parse, as the
concrete mid-file run shows. -/
theorem C7_expected_comment_aborts :
    (∀ (t : Tokenizer) (c : Char) (rest : List Char) (update : Bool),
      t.data.drop t.index = '/' :: c :: rest → c ≠ '*' → c ≠ '/' →
      t.parse update = .error .ExpectedComment) ∧
    parse_ldf inputMidBadComment = .error .ExpectedComment := by
  refine ⟨fun t c rest update h hstar hslash => ?_, rfl⟩
  unfold Tokenizer.parse
  rw [h]
  simp [searchLoop, hstar, hslash]

/-- Witness for C7's universal conjunct: the two-character input `/x`. -/
theorem C7_expected_comment_witness :
    Tokenizer.parse { data := "/x".toList, index := 0 } true =
      .error .ExpectedComment :=
  C7_expected_comment_aborts.1 _ 'x' [] true rfl (by decide) (by decide)

/-! ### C1: sporadic-frame constituent checks -/

/-- C1 counterexample: the claim says every constituent frame listed in a
sporadic group is checked (existence, commander sender, uniqueness), so a
group whose sole listed frame is nonexistent or responder-sent never
parses.  In fact the FIRST listed frame of each group is recorded
unchecked (`vec![tokens.next()?.to_string()]`, ldf.rs line 405): the
input whose groups are `SG1: Ghost;` (nonexistent) and `SG2: Frame2;`
(sent by responder ECU2) parses successfully, recording both. -/
theorem C1_sole_frame_unchecked :
    parse_ldf inputSporadicSole = .ok dbSporadicSole := rfl

/-- C1 (amended): the existence / commander-sender / uniqueness checks are
applied to the second and subsequent constituent frames of a sporadic
group — for those, a nonexistent frame yields `UnknownFrame`, a frame
whose sender is not the commander yields `SporadicFrameHasResponder`, and
a frame already listed in the group yields `DuplicateFrame`.  (The first
listed frame is recorded without any check, as the counterexample
shows.) -/
theorem C1_sporadic_subsequent_checks :
    (∀ (n : Nat) (t t1 t2 : Tokenizer) (msgs : List (String × Message))
        (commander p f : String) (frames : List String),
      t.peek = .ok p → p ≠ ";" → t.check_equal [","] = .ok t1 →
      t1.next = .ok (f, t2) → alGet? msgs f = none →
      sporadicFramesLoop (n + 1) t msgs commander frames =
        .error .UnknownFrame) ∧
    (∀ (n : Nat) (t t1 t2 : Tokenizer) (msgs : List (String × Message))
        (commander p f : String) (frames : List String) (m : Message),
      t.peek = .ok p → p ≠ ";" → t.check_equal [","] = .ok t1 →
      t1.next = .ok (f, t2) → alGet? msgs f = some m →
      m.sender ≠ commander →
      sporadicFramesLoop (n + 1) t msgs commander frames =
        .error .SporadicFrameHasResponder) ∧
    (∀ (n : Nat) (t t1 t2 : Tokenizer) (msgs : List (String × Message))
        (commander p f : String) (frames : List String) (m : Message),
      t.peek = .ok p → p ≠ ";" → t.check_equal [","] = .ok t1 →
      t1.next = .ok (f, t2) → alGet? msgs f = some m →
      m.sender = commander → frames.contains f = true →
      sporadicFramesLoop (n + 1) t msgs commander frames =
        .error .DuplicateFrame) := by
  refine ⟨fun n t t1 t2 msgs commander p f frames hp hne hchk hnext hget => ?_,
    fun n t t1 t2 msgs commander p f frames m hp hne hchk hnext hget hsend => ?_,
    fun n t t1 t2 msgs commander p f frames m hp hne hchk hnext hget hsend hdup => ?_⟩
  · simp [sporadicFramesLoop, hp, hne, hchk, hnext, hget, ebind_ok, ebind_err]
  · simp [sporadicFramesLoop, hp, hne, hchk, hnext, hget, hsend,
      ebind_ok, ebind_err]
  · rw [List.contains_eq_any_beq] at hdup
    simp only [List.any_eq_true, beq_iff_eq] at hdup
    obtain ⟨x, hx, rfl⟩ := hdup
    simp [sporadicFramesLoop, hp, hne, hchk, hnext, hget, hsend, hx,
      ebind_ok, ebind_err]

/-- Witness for C1's three universal conjuncts, at concrete loop states
(messages table with one responder-sent frame `F2`; commander `ECU1`). -/
theorem C1_sporadic_checks_witness :
    sporadicFramesLoop 1 { data := ", Ghost ;".toList, index := 0 } []
        "ECU1" ["F0"] = .error .UnknownFrame ∧
    sporadicFramesLoop 1 { data := ", F2 ;".toList, index := 0 }
        [("F2", { sender := "ECU2", id := 2, byte_width := 1, signals := [],
                  mux_signals := [] })] "ECU1" ["F0"] =
      .error .SporadicFrameHasResponder ∧
    sporadicFramesLoop 1 { data := ", F1 ;".toList, index := 0 }
        [("F1", { sender := "ECU1", id := 1, byte_width := 1, signals := [],
                  mux_signals := [] })] "ECU1" ["F1"] =
      .error .DuplicateFrame :=
  ⟨C1_sporadic_subsequent_checks.1 0 _ _ _ [] "ECU1" "," "Ghost" ["F0"]
      rfl (by decide) rfl rfl rfl,
   C1_sporadic_subsequent_checks.2.1 0 _ _ _ _ "ECU1" "," "F2" ["F0"] _
      rfl (by decide) rfl rfl rfl (by decide),
   C1_sporadic_subsequent_checks.2.2 0 _ _ _ _ "ECU1" "," "F1" ["F1"] _
      rfl (by decide) rfl rfl rfl rfl (by decide)⟩

/-! ### The signal-table invariant (widths capped, encodings empty)

`db.signals` is written at exactly two places in `parse_ldf`: the Signals
section inserts freshly built entries (width checked against
`MAX_SIGNAL_WIDTH`, `encodings` set empty) and the Frames section updates
`bit_start` only.  The lemmas below push `SigInv` through every loop, every
state transition, and the driver, establishing it for every Database the
parser ever returns. -/

/-- Inserting a conforming signal preserves the invariant. -/
theorem sigInv_alInsert {l : List (String × Signal)} {k : String} {v : Signal}
    (hl : SigInv l) (hw : v.bit_width ≤ MAX_SIGNAL_WIDTH)
    (he : v.encodings = []) : SigInv (alInsert l k v) := by
  intro p hp
  unfold alInsert at hp
  split at hp
  · obtain ⟨q, hq, hpq⟩ := List.mem_map.1 hp
    split at hpq
    · cases hpq; exact ⟨hw, he⟩
    · exact hpq ▸ hl q hq
  · rcases List.mem_append.1 hp with hmem | hmem
    · exact hl p hmem
    · simp only [List.mem_singleton] at hmem
      subst hmem
      exact ⟨hw, he⟩

/-- Updating an entry with a function that preserves `bit_width` and
`encodings` preserves the invariant. -/
theorem sigInv_alModify {l : List (String × Signal)} {k : String}
    {f : Signal → Signal} (hl : SigInv l)
    (hf : ∀ s, (f s).bit_width = s.bit_width ∧ (f s).encodings = s.encodings) :
    SigInv (alModify l k f) := by
  intro p hp
  unfold alModify at hp
  obtain ⟨q, hq, hpq⟩ := List.mem_map.1 hp
  split at hpq
  · cases hpq
    have hq' := hl q hq
    exact ⟨(hf q.2).1 ▸ hq'.1, (hf q.2).2 ▸ hq'.2⟩
  · exact hpq ▸ hl q hq

/-- The per-frame (signal, offset) loop only reassigns `bit_start`. -/
theorem frameSigsLoop_sigInv :
    ∀ (n : Nat) (t : Tokenizer) (sigs : List (String × Signal))
      (acc : List String) (out : Tokenizer × List (String × Signal) × List String),
      SigInv sigs → frameSigsLoop n t sigs acc = .ok out → SigInv out.2.1 := by
  intro n
  induction n with
  | zero => intro t sigs acc out hin h; cases h
  | succ n ih =>
    intro t sigs acc out hin h
    simp only [frameSigsLoop] at h
    obtain ⟨p, -, h⟩ := ebind_ok_iff.1 h
    split at h
    · cases h; exact hin
    · obtain ⟨⟨nm, t1⟩, -, h⟩ := ebind_ok_iff.1 h
      obtain ⟨t2, -, h⟩ := ebind_ok_iff.1 h
      obtain ⟨⟨otok, t3⟩, -, h⟩ := ebind_ok_iff.1 h
      obtain ⟨off, -, h⟩ := ebind_ok_iff.1 h
      obtain ⟨t4, -, h⟩ := ebind_ok_iff.1 h
      cases hget : alGet? sigs nm with
      | none => rw [hget] at h; cases h
      | some s =>
        rw [hget] at h
        dsimp only at h
        split at h
        · refine ih _ _ _ _ ?_ h
          exact sigInv_alModify hin (fun s => ⟨rfl, rfl⟩)
        · cases h

/-- The Signals-section loop only inserts checked, encoding-free signals. -/
theorem signalsLoop_sigInv :
    ∀ (n : Nat) (t : Tokenizer) (resp : List (String × LINResponderData))
      (sigs : List (String × Signal))
      (out : Tokenizer × List (String × LINResponderData) × List (String × Signal)),
      SigInv sigs → signalsLoop n t resp sigs = .ok out → SigInv out.2.2 := by
  intro n
  induction n with
  | zero => intro t resp sigs out hin h; cases h
  | succ n ih =>
    intro t resp sigs out hin h
    simp only [signalsLoop] at h
    obtain ⟨p, -, h⟩ := ebind_ok_iff.1 h
    split at h
    · cases h; exact hin
    · obtain ⟨⟨nm, t1⟩, -, h⟩ := ebind_ok_iff.1 h
      obtain ⟨t2, -, h⟩ := ebind_ok_iff.1 h
      obtain ⟨⟨wtok, t3⟩, -, h⟩ := ebind_ok_iff.1 h
      obtain ⟨w, -, h⟩ := ebind_ok_iff.1 h
      split at h
      · cases h
      next hbw =>
        obtain ⟨t4, -, h⟩ := ebind_ok_iff.1 h
        obtain ⟨pk, -, h⟩ := ebind_ok_iff.1 h
        split at h
        · obtain ⟨t', -, h⟩ := ebind_ok_iff.1 h
          obtain ⟨y, -, h⟩ := ebind_ok_iff.1 h
          obtain ⟨t6, -, h⟩ := ebind_ok_iff.1 h
          obtain ⟨⟨pub, t7⟩, -, h⟩ := ebind_ok_iff.1 h
          obtain ⟨⟨t8, resp1⟩, -, h⟩ := ebind_ok_iff.1 h
          obtain ⟨⟨semi, t9⟩, -, h⟩ := ebind_ok_iff.1 h
          exact ih _ _ _ _ (sigInv_alInsert hin (Nat.le_of_not_lt hbw) rfl) h
        · obtain ⟨⟨itok, t'⟩, -, h⟩ := ebind_ok_iff.1 h
          obtain ⟨iv, -, h⟩ := ebind_ok_iff.1 h
          obtain ⟨y, -, h⟩ := ebind_ok_iff.1 h
          obtain ⟨t6, -, h⟩ := ebind_ok_iff.1 h
          obtain ⟨⟨pub, t7⟩, -, h⟩ := ebind_ok_iff.1 h
          obtain ⟨⟨t8, resp1⟩, -, h⟩ := ebind_ok_iff.1 h
          obtain ⟨⟨semi, t9⟩, -, h⟩ := ebind_ok_iff.1 h
          exact ih _ _ _ _ (sigInv_alInsert hin (Nat.le_of_not_lt hbw) rfl) h

/-- The Frames-section loop passes the signal table through
`frameSigsLoop` only. -/
theorem framesLoop_sigInv :
    ∀ (n : Nat) (t : Tokenizer) (sigs : List (String × Signal))
      (msgs : List (String × Message))
      (out : Tokenizer × List (String × Signal) × List (String × Message)),
      SigInv sigs → framesLoop n t sigs msgs = .ok out → SigInv out.2.1 := by
  intro n
  induction n with
  | zero => intro t sigs msgs out hin h; cases h
  | succ n ih =>
    intro t sigs msgs out hin h
    simp only [framesLoop] at h
    obtain ⟨p, -, h⟩ := ebind_ok_iff.1 h
    split at h
    · cases h; exact hin
    · obtain ⟨⟨nm, t1⟩, -, h⟩ := ebind_ok_iff.1 h
      obtain ⟨t2, -, h⟩ := ebind_ok_iff.1 h
      obtain ⟨⟨idtok, t3⟩, -, h⟩ := ebind_ok_iff.1 h
      obtain ⟨idv, -, h⟩ := ebind_ok_iff.1 h
      obtain ⟨t4, -, h⟩ := ebind_ok_iff.1 h
      obtain ⟨⟨sender, t5⟩, -, h⟩ := ebind_ok_iff.1 h
      obtain ⟨t6, -, h⟩ := ebind_ok_iff.1 h
      obtain ⟨⟨bwtok, t7⟩, -, h⟩ := ebind_ok_iff.1 h
      obtain ⟨bwv, -, h⟩ := ebind_ok_iff.1 h
      obtain ⟨t8, -, h⟩ := ebind_ok_iff.1 h
      obtain ⟨⟨t9, sigs1, fsignals⟩, hfsl, h⟩ := ebind_ok_iff.1 h
      obtain ⟨⟨brace, t10⟩, -, h⟩ := ebind_ok_iff.1 h
      exact ih _ _ _ _ (frameSigsLoop_sigInv _ _ _ _ _ hin hfsl) h

/-- One state transition preserves the invariant. -/
theorem step_sigInv (st : ParserState) (ps : PState) (st' : ParserState)
    (ps' : PState) (h : step st ps = .ok (st', ps'))
    (hin : SigInv ps.db.signals) : SigInv ps'.db.signals := by
  cases st with
  | Header =>
    simp only [step] at h
    obtain ⟨t, -, h⟩ := ebind_ok_iff.1 h
    cases h; exact hin
  | ProtocolVersion =>
    simp only [step] at h
    obtain ⟨t1, -, h⟩ := ebind_ok_iff.1 h
    obtain ⟨⟨v, t2⟩, -, h⟩ := ebind_ok_iff.1 h
    obtain ⟨t3, -, h⟩ := ebind_ok_iff.1 h
    cases h; exact hin
  | LanguageVersion =>
    simp only [step] at h
    obtain ⟨t1, -, h⟩ := ebind_ok_iff.1 h
    obtain ⟨⟨v, t2⟩, -, h⟩ := ebind_ok_iff.1 h
    obtain ⟨t3, -, h⟩ := ebind_ok_iff.1 h
    cases h; exact hin
  | Speed =>
    simp only [step] at h
    obtain ⟨t1, -, h⟩ := ebind_ok_iff.1 h
    obtain ⟨⟨btok, t2⟩, -, h⟩ := ebind_ok_iff.1 h
    obtain ⟨b, -, h⟩ := ebind_ok_iff.1 h
    obtain ⟨t3, -, h⟩ := ebind_ok_iff.1 h
    obtain ⟨p, -, h⟩ := ebind_ok_iff.1 h
    cases h; exact hin
  | ChannelName =>
    simp only [step] at h
    obtain ⟨t1, -, h⟩ := ebind_ok_iff.1 h
    obtain ⟨⟨pf, t2⟩, -, h⟩ := ebind_ok_iff.1 h
    obtain ⟨t3, -, h⟩ := ebind_ok_iff.1 h
    cases h; exact hin
  | Node =>
    simp only [step] at h
    obtain ⟨t1, -, h⟩ := ebind_ok_iff.1 h
    obtain ⟨⟨commander, t2⟩, -, h⟩ := ebind_ok_iff.1 h
    obtain ⟨t3, -, h⟩ := ebind_ok_iff.1 h
    obtain ⟨⟨tbtok, t4⟩, -, h⟩ := ebind_ok_iff.1 h
    obtain ⟨tb, -, h⟩ := ebind_ok_iff.1 h
    obtain ⟨t5, -, h⟩ := ebind_ok_iff.1 h
    obtain ⟨⟨jtok, t6⟩, -, h⟩ := ebind_ok_iff.1 h
    obtain ⟨jv, -, h⟩ := ebind_ok_iff.1 h
    obtain ⟨t7, -, h⟩ := ebind_ok_iff.1 h
    obtain ⟨⟨t8, resp⟩, -, h⟩ := ebind_ok_iff.1 h
    obtain ⟨t9, -, h⟩ := ebind_ok_iff.1 h
    obtain ⟨p, -, h⟩ := ebind_ok_iff.1 h
    cases h; exact hin
  | NodeComposition =>
    simp only [step] at h
    obtain ⟨t1, -, h⟩ := ebind_ok_iff.1 h
    obtain ⟨t2, -, h⟩ := ebind_ok_iff.1 h
    cases h; exact hin
  | Signal =>
    simp only [step] at h
    obtain ⟨t1, -, h⟩ := ebind_ok_iff.1 h
    obtain ⟨⟨t2, resp, sigs⟩, hsl, h⟩ := ebind_ok_iff.1 h
    obtain ⟨⟨brace, t3⟩, -, h⟩ := ebind_ok_iff.1 h
    obtain ⟨p, -, h⟩ := ebind_ok_iff.1 h
    cases h
    exact signalsLoop_sigInv _ _ _ _ _ hin hsl
  | DiagnosticSignal =>
    simp only [step] at h
    obtain ⟨t1, -, h⟩ := ebind_ok_iff.1 h
    cases h; exact hin
  | Frame =>
    simp only [step] at h
    obtain ⟨t1, -, h⟩ := ebind_ok_iff.1 h
    obtain ⟨⟨t2, sigs, msgs⟩, hfl, h⟩ := ebind_ok_iff.1 h
    obtain ⟨⟨brace, t3⟩, -, h⟩ := ebind_ok_iff.1 h
    obtain ⟨p, -, h⟩ := ebind_ok_iff.1 h
    cases h
    exact framesLoop_sigInv _ _ _ _ _ hin hfl
  | SporadicFrame =>
    simp only [step] at h
    obtain ⟨t1, -, h⟩ := ebind_ok_iff.1 h
    obtain ⟨⟨t2, spor⟩, -, h⟩ := ebind_ok_iff.1 h
    obtain ⟨⟨brace, t3⟩, -, h⟩ := ebind_ok_iff.1 h
    obtain ⟨p, -, h⟩ := ebind_ok_iff.1 h
    cases h; exact hin
  | EventTriggeredFrame =>
    simp only [step] at h
    obtain ⟨t1, -, h⟩ := ebind_ok_iff.1 h
    obtain ⟨⟨t2, evts⟩, -, h⟩ := ebind_ok_iff.1 h
    obtain ⟨⟨brace, t3⟩, -, h⟩ := ebind_ok_iff.1 h
    obtain ⟨p, -, h⟩ := ebind_ok_iff.1 h
    cases h; exact hin
  | DiagnosticFrame =>
    simp only [step] at h
    obtain ⟨t1, -, h⟩ := ebind_ok_iff.1 h
    cases h; exact hin
  | NodeAttributes =>
    simp only [step] at h
    obtain ⟨t1, -, h⟩ := ebind_ok_iff.1 h
    obtain ⟨⟨t2, resp⟩, -, h⟩ := ebind_ok_iff.1 h
    obtain ⟨⟨brace, t3⟩, -, h⟩ := ebind_ok_iff.1 h
    cases h; exact hin
  | ScheduleTable =>
    simp only [step] at h
    obtain ⟨t1, -, h⟩ := ebind_ok_iff.1 h
    obtain ⟨⟨t2, tables⟩, -, h⟩ := ebind_ok_iff.1 h
    obtain ⟨⟨brace, t3⟩, -, h⟩ := ebind_ok_iff.1 h
    cases hpk : t3.peek with
    | ok tok =>
      rw [hpk] at h
      dsimp only at h
      by_cases h1 : tok = "Signal_groups"
      · rw [if_pos h1] at h; cases h; exact hin
      · rw [if_neg h1] at h
        by_cases h2 : tok = "Signal_encoding_types"
        · rw [if_pos h2] at h; cases h; exact hin
        · rw [if_neg h2] at h
          by_cases h3 : tok = "Signal_representation"
          · rw [if_pos h3] at h; cases h; exact hin
          · rw [if_neg h3] at h; cases h
    | error e =>
      rw [hpk] at h
      dsimp only at h
      cases h; exact hin
  | SignalGroups =>
    simp only [step] at h
    obtain ⟨t1, -, h⟩ := ebind_ok_iff.1 h
    obtain ⟨t2, -, h⟩ := ebind_ok_iff.1 h
    cases hpk : t2.peek with
    | ok tok =>
      rw [hpk] at h
      dsimp only at h
      by_cases h1 : tok = "Signal_encoding_types"
      · rw [if_pos h1] at h; cases h; exact hin
      · rw [if_neg h1] at h
        by_cases h2 : tok = "Signal_representation"
        · rw [if_pos h2] at h; cases h; exact hin
        · rw [if_neg h2] at h; cases h
    | error e =>
      rw [hpk] at h
      dsimp only at h
      cases h; exact hin
  | SignalEncodingTypes =>
    simp only [step] at h
    obtain ⟨t1, -, h⟩ := ebind_ok_iff.1 h
    obtain ⟨⟨t2, encs⟩, -, h⟩ := ebind_ok_iff.1 h
    obtain ⟨⟨brace, t3⟩, -, h⟩ := ebind_ok_iff.1 h
    cases hpk : t3.peek with
    | ok tok =>
      rw [hpk] at h
      dsimp only at h
      by_cases h1 : tok = "Signal_representation"
      · rw [if_pos h1] at h; cases h; exact hin
      · rw [if_neg h1] at h; cases h
    | error e =>
      rw [hpk] at h
      dsimp only at h
      cases h; exact hin
  | SignalRepresentation =>
    simp only [step] at h
    cases hpk : ps.toks.peek with
    | ok tok => rw [hpk] at h; dsimp only at h; cases h
    | error e => rw [hpk] at h; dsimp only at h; cases h; exact hin
  | Done =>
    simp only [step] at h
    cases h; exact hin

/-- The driver loop preserves the invariant up to the returned Database. -/
theorem runState_sigInv :
    ∀ (n : Nat) (st : ParserState) (ps : PState) (db : Database),
      runState n st ps = .ok db → SigInv ps.db.signals → SigInv db.signals := by
  intro n
  induction n with
  | zero => intro st ps db h _; cases h
  | succ n ih =>
    intro st ps db h hin
    simp only [runState] at h
    split at h
    · cases h; exact hin
    · obtain ⟨⟨st', ps'⟩, hstep, h⟩ := ebind_ok_iff.1 h
      exact ih st' ps' db h (step_sigInv _ _ _ _ hstep hin)

/-- Every Database `parse_ldf` returns satisfies the signal-table
invariant. -/
theorem parse_ldf_sigInv (s : String) (db : Database)
    (h : parse_ldf s = .ok db) : SigInv db.signals :=
  runState_sigInv 32 .Header _ db h (fun p hp => absurd hp (List.not_mem_nil p))

/-! ### C3: frame signal references -/

/-- C3 counterexample: the claim says an entry naming a signal whose
`bit_start` was already assigned always yields `DuplicateSignal`; but the
"already assigned" test compares against the sentinel
`BIT_START_INVALID = 65535`, so after `Sig1, 65535;` the signal is
indistinguishable from unset and the second entry `Sig1, 1;` is accepted:
the parse SUCCEEDS although `Sig1` appears twice in one frame. -/
theorem C3_sentinel_offset_accepted :
    parse_ldf inputSentinelOffset = .ok dbSentinelOffset := rfl

/-- C3 (amended): inside a Frames-section frame, an entry naming a signal
absent from the signal table makes the loop — and, fail-fast, the parse —
return `UnknownSignal`; an entry naming a signal whose `bit_start` holds
any value other than the sentinel 65535 (i.e. it was genuinely assigned
before, in this or an earlier frame) returns `DuplicateSignal`.  A prior
assignment of exactly 65535 aliases the sentinel and is treated as unset,
as the counterexample shows. -/
theorem C3_frame_signal_checks :
    (∀ (n : Nat) (t t1 t2 t3 t4 : Tokenizer) (sigs : List (String × Signal))
        (acc : List String) (p nm otok : String) (off : Nat),
      t.peek = .ok p → p ≠ "\x7d" → t.next = .ok (nm, t1) →
      t1.check_equal [","] = .ok t2 → t2.next = .ok (otok, t3) →
      parse_integer otok = .ok off → t3.check_equal [";"] = .ok t4 →
      alGet? sigs nm = none →
      frameSigsLoop (n + 1) t sigs acc = .error .UnknownSignal) ∧
    (∀ (n : Nat) (t t1 t2 t3 t4 : Tokenizer) (sigs : List (String × Signal))
        (acc : List String) (p nm otok : String) (off : Nat) (s : Signal),
      t.peek = .ok p → p ≠ "\x7d" → t.next = .ok (nm, t1) →
      t1.check_equal [","] = .ok t2 → t2.next = .ok (otok, t3) →
      parse_integer otok = .ok off → t3.check_equal [";"] = .ok t4 →
      alGet? sigs nm = some s → s.bit_start ≠ BIT_START_INVALID →
      frameSigsLoop (n + 1) t sigs acc = .error .DuplicateSignal) ∧
    parse_ldf inputUnknownSignal = .error .UnknownSignal ∧
    parse_ldf inputDupSignal = .error .DuplicateSignal := by
  refine ⟨fun n t t1 t2 t3 t4 sigs acc p nm otok off
      hp hne hnm hchk hot hoff hchk2 hget => ?_,
    fun n t t1 t2 t3 t4 sigs acc p nm otok off s
      hp hne hnm hchk hot hoff hchk2 hget hbs => ?_, rfl, rfl⟩
  · simp [frameSigsLoop, hp, hne, hnm, hchk, hot, hoff, hchk2, hget,
      ebind_ok, ebind_err]
  · simp [frameSigsLoop, hp, hne, hnm, hchk, hot, hoff, hchk2, hget, hbs,
      ebind_ok, ebind_err]

/-- Witness for C3's two universal conjuncts, at concrete loop states. -/
theorem C3_frame_signal_checks_witness :
    frameSigsLoop 1 { data := "Ghost , 0 ;".toList, index := 0 } [] [] =
        .error .UnknownSignal ∧
    frameSigsLoop 1 { data := "S , 1 ;".toList, index := 0 }
        [("S", { signed := false, little_endian := true, bit_start := 0,
                 bit_width := 8, init_value := 0, encodings := [] })] [] =
      .error .DuplicateSignal :=
  ⟨C3_frame_signal_checks.1 0 _ _ _ _ _ [] [] "Ghost" "Ghost" "0" 0
      rfl (by decide) rfl rfl rfl rfl rfl rfl,
   C3_frame_signal_checks.2.1 0 _ _ _ _ _ _ [] "S" "S" "1" 1 _
      rfl (by decide) rfl rfl rfl rfl rfl rfl (by decide)⟩

/-! ### C5: the signal-width cap -/

/-- C5: a Signals-section declaration whose parsed width value has 16-bit
truncation above `MAX_SIGNAL_WIDTH` (in particular the literal 65) makes
the loop — and, fail-fast, the parse — return `SignalTooWide`; the
concrete width-65 input fails that way end-to-end; every Database
`parse_ldf` ever returns Ok has all its signals' `bit_width` at most
`MAX_SIGNAL_WIDTH = 64`; and the concrete width-64 input parses
successfully with `bit_width = 64`. -/
theorem C5_signal_width_cap :
    (∀ (n : Nat) (t t1 t2 t3 : Tokenizer)
        (resp : List (String × LINResponderData))
        (sigs : List (String × Signal)) (p nm wtok : String) (w : Nat),
      t.peek = .ok p → p ≠ "\x7d" → t.next = .ok (nm, t1) →
      t1.check_equal [":"] = .ok t2 → t2.next = .ok (wtok, t3) →
      parse_integer wtok = .ok w → w % 2 ^ 16 > MAX_SIGNAL_WIDTH →
      signalsLoop (n + 1) t resp sigs = .error .SignalTooWide) ∧
    parse_ldf inputWide65 = .error .SignalTooWide ∧
    (∀ (s : String) (db : Database), parse_ldf s = .ok db →
      ∀ p ∈ db.signals, p.2.bit_width ≤ MAX_SIGNAL_WIDTH) ∧
    parse_ldf inputWide64 = .ok dbWide64 := by
  refine ⟨fun n t t1 t2 t3 resp sigs p nm wtok w
      hp hne hnm hchk hw hint hgt => ?_, rfl,
    fun s db h p hp => (parse_ldf_sigInv s db h p hp).1, rfl⟩
  simp [signalsLoop, hp, hne, hnm, hchk, hw, hint, hgt, ebind_ok, ebind_err]
  intro hle
  simp only [MAX_SIGNAL_WIDTH] at hgt hle
  exact absurd hle (by omega)

/-- Witness for C5's universal conjuncts: the width-65 declaration at a
concrete loop state, and the width bound of the signal of `dbWide64`. -/
theorem C5_signal_width_cap_witness :
    signalsLoop 1 { data := "Sig : 65 ,".toList, index := 0 } [] [] =
        .error .SignalTooWide ∧
    (("Sig1",
      ({ signed := false, little_endian := true, bit_start := 0,
         bit_width := 64, init_value := 0, encodings := [] } : Signal)) :
        String × Signal).2.bit_width ≤ MAX_SIGNAL_WIDTH :=
  ⟨C5_signal_width_cap.1 0 _ _ _ _ [] [] "Sig" "Sig" "65" 65
      rfl (by decide) rfl rfl rfl rfl (by decide),
   C5_signal_width_cap.2.2.1 inputWide64 dbWide64 rfl _ (by decide)⟩

/-! ### C9: encodings never reach the Database -/

/-- C9: for every input on which `parse_ldf` returns Ok, every Signal in
the returned Database has an empty `encodings` list — the encodings
accumulated by the Signal_encoding_types section live only in the
parse-local map dropped at the end of `parse_ldf` and are never attached
to a Signal. -/
theorem C9_encodings_never_attached (s : String) (db : Database)
    (h : parse_ldf s = .ok db) : ∀ p ∈ db.signals, p.2.encodings = [] :=
  fun p hp => (parse_ldf_sigInv s db h p hp).2

/-- Witness for C9 at the concrete scenario input (whose database holds
the signal `Sig1`). -/
theorem C9_encodings_never_attached_witness :
    (("Sig1",
      ({ signed := false, little_endian := true, bit_start := 0,
         bit_width := 8, init_value := 0, encodings := [] } : Signal)) :
        String × Signal).2.encodings = [] :=
  C9_encodings_never_attached inputScenario dbScenario rfl _ (by decide)

end Autodbconv
